import Mathlib

/-!
# Verification of the LangGraph orchestrator (execution/langgraph)

Shallow embedding, in Lean 4, of the Phase-1 LangGraph orchestrator of this
repository.  The definitions below are translated from the Python sources:

* `execution/langgraph/graph.py`        — orchestrator graph driver
* `execution/langgraph/policy.py`       — memoization policy
* `execution/langgraph/memo_store.py`   — bundled SQLite memo store (put/get only)
* `src/agentic_workflows/orchestration/langgraph/memo_store.py`
                                        — full memo store (put/get/get_latest/list_entries)
* `execution/langgraph/state_schema.py` — run state and defaults
* `execution/langgraph/tools_registry.py`, `tools/*.py`
                                        — tool adapters (write_file, memoize, retrieve_memo, echo)

Modelling conventions:

* Python `str` is Lean `String`; character-level work is done on `List Char`.
  Regular expressions from the source are hand-compiled into equivalent
  character-list matchers (each is documented at its definition).
* Python machine integers are unbounded (`int`), so they are `Int`/`Nat`.
* JSON values are the inductive `Json`; `json.dumps(..., sort_keys=True)` is
  `Json.dumps`.  SHA-256 hashing (`hash_json`) is abstracted as an injective
  content fingerprint `sha256Hex`; no claim inspects the hash text itself.
* File-system writes, wall-clock time, uuid generation and logging are not
  observable in any claim; file writes are modelled as always succeeding,
  timestamps as `""`, and the provider wall-clock timeout as a scripted
  outcome of each `generate` call.
-/

set_option maxHeartbeats 12000000
set_option maxRecDepth 8192
set_option smartUnfolding false

/-! ## Character/string helpers (Python semantics) -/

/-- Whitespace stripped by Python `str.strip()` / matched by `\s` (ASCII range). -/
def pyIsSpace (c : Char) : Bool :=
  c = ' ' || c = '\t' || c = '\n' || c = '\r' || c = '\x0b' || c = '\x0c'

/-- Python `str.strip()` on a character list. -/
def pyStripL (cs : List Char) : List Char :=
  ((cs.dropWhile pyIsSpace).reverse.dropWhile pyIsSpace).reverse

/-- Python `str.strip()`. -/
def pyStrip (s : String) : String := ⟨pyStripL s.data⟩

/-- `n` occurs as a contiguous sublist of `h` (Python `needle in hay`). -/
def listIsInfix (n h : List Char) : Bool :=
  if n.isPrefixOf h then true
  else match h with
    | [] => false
    | _ :: t => listIsInfix n t

/-- Python `needle in hay` on strings (empty needle is contained everywhere). -/
def pyContains (hay needle : String) : Bool :=
  listIsInfix needle.data hay.data

/-- Python `str.lower()` on one character (ASCII; the sources only feed ASCII). -/
def pyLowerChar (c : Char) : Char :=
  if 'A' ≤ c && c ≤ 'Z' then Char.ofNat (c.toNat + 32) else c

/-- Python `str.lower()` (ASCII letters; the sources only feed ASCII text). -/
def pyLower (s : String) : String := ⟨s.data.map pyLowerChar⟩

/-- Python `str.rstrip(chars)`. -/
def pyRstrip (s : String) (chars : List Char) : String :=
  ⟨(s.data.reverse.dropWhile (fun c => chars.contains c)).reverse⟩

/-- Count occurrences of a character (Python `str.count(c)` for a 1-char needle). -/
def countChar (s : String) (c : Char) : Nat :=
  s.data.countP (fun d => d = c)

/-- Digit run value: `digitsToNat ['1','2'] = 12`. -/
def digitsToNat (ds : List Char) : Nat :=
  ds.foldl (fun acc c => 10 * acc + (c.toNat - '0'.toNat)) 0

/-- Python `int(token)` for a token matching `-?\d+`. -/
def tokenToInt (cs : List Char) : Int :=
  match cs with
  | '-' :: ds => -(digitsToNat ds : Int)
  | ds => (digitsToNat ds : Int)

/-- Does the token match the anchored regex `^-?\d+$` (nonempty digit run,
optional leading minus)?  Mirrors `re.match(r"^-?\d+$", token)` on an
already-stripped token. -/
def tokenIsIntLit (cs : List Char) : Bool :=
  match cs with
  | '-' :: ds => !ds.isEmpty && ds.all Char.isDigit
  | ds => !ds.isEmpty && ds.all Char.isDigit

/-! ## CSV integer parsing and the Fibonacci content validator
(`graph.py`: `_parse_csv_int_list`, `_validate_tool_result_for_active_mission`) -/

/-- `graph.py::_parse_csv_int_list`: split on `','`, strip each token, drop
empty tokens; `[]` for no tokens; otherwise every token must match `^-?\d+$`
(else `None`), and the integers are returned in order. -/
def parse_csv_int_list (content : String) : Option (List Int) :=
  let tokens := ((content.data.splitOn ',').map pyStripL).filter (fun t => !t.isEmpty)
  if tokens.isEmpty then some []
  else
    tokens.foldr
      (fun t acc =>
        match acc with
        | none => none
        | some ns => if tokenIsIntLit t then some (tokenToInt t :: ns) else none)
      (some [])

/-- First index `i ≥ 2` violating `x[i] = x[i-1] + x[i-2]`, if any; walks the
list like the `for index in range(2, len(numbers))` loop of the validator. -/
def fibMismatchIdx : Int → Int → List Int → Nat → Option Nat
  | _, _, [], _ => none
  | p2, p1, x :: rest, i => if x = p1 + p2 then fibMismatchIdx p1 x rest (i + 1) else some i

/-- `graph.py::_validate_tool_result_for_active_mission`, as a function of the
data it reads: the tool name, whether the tool result map contains the key
`"error"`, the active (next incomplete) mission text, and the written content.
Returns `none` on pass, or `some reason`. -/
def validate_tool_result_for_active_mission
    (tool_name : String) (resultHasError : Bool)
    (missionText : String) (content : String) : Option String :=
  if tool_name ≠ "write_file" then none
  else if resultHasError then none
  else if !pyContains (pyLower missionText) "fibonacci" then none
  else
    match parse_csv_int_list content with
    | none => some "write_file content must be a comma-separated list of integers."
    | some numbers =>
      if numbers.length ≠ 100 then
        some ("fibonacci content must contain exactly 100 integers, got " ++
          toString numbers.length ++ ".")
      else if numbers.headD 0 ≠ 0 || (numbers.drop 1).headD 0 ≠ 1 then
        some "fibonacci content must start with 0, 1."
      else
        match numbers with
        | x0 :: x1 :: rest =>
          match fibMismatchIdx x0 x1 rest 2 with
          | none => none
          | some i =>
            some ("fibonacci sequence mismatch at index " ++ toString i ++ ".")
        | _ => none

/-! ## Fibonacci CSV generation (`graph.py::_fibonacci_csv`) -/

/-- The list `[0, 1]` extended by sums of the last two elements until it has
`count` elements, then truncated to `count` (the `while len(numbers) < count`
loop followed by `numbers[:count]`). -/
def fibNumbers (count : Nat) : List Int :=
  let rec grow : Nat → List Int → List Int
    | 0, acc => acc
    | n + 1, acc =>
      match acc with
      | p1 :: p2 :: _ => grow n ((p1 + p2) :: acc)
      | _ => acc
  ((grow (count - 2) [1, 0]).reverse).take count

/-- Join character lists with a separator, right-nested (see `jsonEscapeL`). -/
def joinWithL (sep : List Char) : List (List Char) → List Char
  | [] => []
  | [x] => x
  | x :: xs => x ++ (sep ++ joinWithL sep xs)

/-- Tail-recursive list length (the kernel evaluates the non-tail core
`List.length` with one stack frame per element). -/
def lenL : List Char → Nat → Nat
  | [], n => n
  | _ :: t, n => lenL t (n + 1)

/-- Python `len` on a string (character count). -/
def pyLen (s : String) : Nat := lenL s.data 0

/-- `graph.py::_fibonacci_csv`: the first `count` Fibonacci numbers joined by
`", "`. -/
def fibonacci_csv (count : Nat) : String :=
  ⟨joinWithL (", ".data) ((fibNumbers count).map (fun v => (toString v).data))⟩

/-! ## JSON values

Python dicts/lists/strings/ints/bools/None as they flow through the
orchestrator.  A mutual inductive (instead of nested `List`) keeps every
function structurally recursive so that concrete runs reduce in the kernel. -/

mutual
inductive Json where
  | null
  | bool (b : Bool)
  | int (n : Int)
  | str (s : String)
  | arr (xs : JsonItems)
  | obj (fs : JsonFields)
inductive JsonItems where
  | nil
  | cons (hd : Json) (tl : JsonItems)
inductive JsonFields where
  | nil
  | cons (k : String) (v : Json) (tl : JsonFields)
end

/-- Build a JSON array from a Lean list. -/
def Json.mkArr : List Json → Json :=
  fun xs => .arr (xs.foldr (fun j acc => .cons j acc) .nil)

/-- Build a JSON object from a Lean association list (in insertion order). -/
def Json.mkObj : List (String × Json) → Json :=
  fun fs => .obj (fs.foldr (fun kv acc => .cons kv.1 kv.2 acc) .nil)

/-- First value bound to `k` (Python `dict[k]` / `dict.get(k)`). -/
def JsonFields.lookup : JsonFields → String → Option Json
  | .nil, _ => none
  | .cons k v t, key => if k = key then some v else t.lookup key

/-- Python dict assignment `d[k] = v`: overwrite in place, else append. -/
def JsonFields.set : JsonFields → String → Json → JsonFields
  | .nil, key, v => .cons key v .nil
  | .cons k v0 t, key, v =>
    if k = key then .cons k v t else .cons k v0 (t.set key v)

/-- Python `dict.setdefault(k, v)`. -/
def JsonFields.setdefault (fs : JsonFields) (key : String) (v : Json) : JsonFields :=
  match fs.lookup key with
  | some _ => fs
  | none => fs.set key v

def JsonFields.keys : JsonFields → List String
  | .nil => []
  | .cons k _ t => k :: t.keys

/-- `dict.get(k)` on a JSON value (non-objects have no keys). -/
def Json.get? : Json → String → Option Json
  | .obj fs, key => fs.lookup key
  | _, _ => none

/-- Python `k in result` on a JSON object. -/
def Json.hasKey (j : Json) (key : String) : Bool :=
  (j.get? key).isSome

/-- Lexicographic order on code points (Python `<` on strings). -/
def charsLt : List Char → List Char → Bool
  | [], [] => false
  | [], _ :: _ => true
  | _ :: _, [] => false
  | a :: as, b :: bs =>
    if a.toNat < b.toNat then true
    else if b.toNat < a.toNat then false
    else charsLt as bs

def strLt (a b : String) : Bool := charsLt a.data b.data

/-- Stable insertion sort of object fields by key (`json.dumps(sort_keys=True)`;
Python compares strings by code points). -/
def JsonFields.insertSorted (key : String) (v : Json) : JsonFields → JsonFields
  | .nil => .cons key v .nil
  | .cons k0 v0 t =>
    if strLt key k0 then .cons key v (.cons k0 v0 t)
    else .cons k0 v0 (t.insertSorted key v)

def JsonFields.sortByKey : JsonFields → JsonFields
  | .nil => .nil
  | .cons k v t => (t.sortByKey).insertSorted k v

/-- Lower-case hex digit. -/
def hexDigit (n : Nat) : Char :=
  if n < 10 then Char.ofNat ('0'.toNat + n) else Char.ofNat ('a'.toNat + (n - 10))

/-- Four-digit lower-case hex (for `\uXXXX` escapes). -/
def hex4 (n : Nat) : String :=
  ⟨[hexDigit (n / 4096 % 16), hexDigit (n / 256 % 16), hexDigit (n / 16 % 16), hexDigit (n % 16)]⟩

/-- JSON string escaping as `json.dumps` performs it (`ensure_ascii=True`):
quote, backslash and the named control escapes, `\uXXXX` for other control or
non-ASCII characters (surrogate pairs above the BMP). -/
def jsonEscapeChar (c : Char) : String :=
  if c = '"' then "\\\""
  else if c = '\\' then "\\\\"
  else if c = '\n' then "\\n"
  else if c = '\t' then "\\t"
  else if c = '\r' then "\\r"
  else if c = '\x08' then "\\b"
  else if c = '\x0c' then "\\f"
  else if c.toNat < 0x20 then "\\u" ++ hex4 c.toNat
  else if c.toNat < 0x7f then ⟨[c]⟩
  else if c.toNat < 0x10000 then "\\u" ++ hex4 c.toNat
  else
    let v := c.toNat - 0x10000
    "\\u" ++ hex4 (0xd800 + v / 1024) ++ "\\u" ++ hex4 (0xdc00 + v % 1024)

/-- The escaped characters, right-nested so that consumers force them
incrementally (a left fold of `String.append` would nest pattern-matches as
deep as the string is long). -/
def jsonEscapeL : List Char → List Char
  | [] => []
  | c :: cs => (jsonEscapeChar c).data ++ jsonEscapeL cs

def jsonEscape (s : String) : String :=
  ⟨'"' :: (jsonEscapeL s.data ++ ['"'])⟩

mutual
/-- Recursively sort every object's fields by key. -/
def Json.sortKeys : Json → Json
  | .obj fs => .obj (JsonFields.sortByKey fs.sortVals)
  | .arr xs => .arr xs.sortItems
  | .null => .null
  | .bool b => .bool b
  | .int n => .int n
  | .str s => .str s
def JsonItems.sortItems : JsonItems → JsonItems
  | .nil => .nil
  | .cons h t => .cons h.sortKeys t.sortItems
def JsonFields.sortVals : JsonFields → JsonFields
  | .nil => .nil
  | .cons k v t => .cons k v.sortKeys t.sortVals
end

mutual
/-- Serialize with default separators `", "` and `": "` (field order as given). -/
def Json.dumpsRaw : Json → String
  | .null => "null"
  | .bool true => "true"
  | .bool false => "false"
  | .int n => toString n
  | .str s => jsonEscape s
  | .arr xs => "[" ++ xs.dumpsItems ++ "]"
  | .obj fs => "\x7b" ++ fs.dumpsFields ++ "\x7d"
def JsonItems.dumpsItems : JsonItems → String
  | .nil => ""
  | .cons h .nil => h.dumpsRaw
  | .cons h t => h.dumpsRaw ++ ", " ++ t.dumpsItems
def JsonFields.dumpsFields : JsonFields → String
  | .nil => ""
  | .cons k v .nil => jsonEscape k ++ ": " ++ v.dumpsRaw
  | .cons k v t => jsonEscape k ++ ": " ++ v.dumpsRaw ++ ", " ++ t.dumpsFields
end

/-- `json.dumps(value, sort_keys=True, default=str)` — canonical JSON text
with sorted object keys. -/
def Json.dumps (j : Json) : String := j.sortKeys.dumpsRaw

mutual
/-- Python `repr()` of the corresponding dict/list/str/int/bool/None value
(string quoting subtleties elided: the orchestrator only logs these texts into
mission `result` fields and auto-finish summaries, and no scenario string
contains a quote character). -/
def Json.pyRepr : Json → String
  | .null => "None"
  | .bool true => "True"
  | .bool false => "False"
  | .int n => toString n
  | .str s => "'" ++ s ++ "'"
  | .arr xs => "[" ++ xs.pyReprItems ++ "]"
  | .obj fs => "\x7b" ++ fs.pyReprFields ++ "\x7d"
def JsonItems.pyReprItems : JsonItems → String
  | .nil => ""
  | .cons h .nil => h.pyRepr
  | .cons h t => h.pyRepr ++ ", " ++ t.pyReprItems
def JsonFields.pyReprFields : JsonFields → String
  | .nil => ""
  | .cons k v .nil => "'" ++ k ++ "': " ++ v.pyRepr
  | .cons k v t => "'" ++ k ++ "': " ++ v.pyRepr ++ ", " ++ t.pyReprFields
end

/-- Python `str()` of a JSON value (identity on strings, `repr` otherwise). -/
def Json.pyStr : Json → String
  | .str s => s
  | j => j.pyRepr

/-- `str(d.get(k, dflt))` for a string default. -/
def jsonGetStr (j : Json) (k : String) (dflt : String) : String :=
  match j.get? k with
  | none => dflt
  | some v => v.pyStr

/-- SHA-256 hex digest, abstracted as an injective content fingerprint.  The
orchestrator only threads `value_hash` strings through events and reports; no
verified claim inspects the digest text, only which values were hashed. -/
def sha256Hex (s : String) : String := "sha256:" ++ s

/-- `state_schema.py::hash_json`: digest of the canonical JSON serialization. -/
def hash_json (v : Json) : String := sha256Hex v.dumps

/-! ## Memo store

`src/agentic_workflows/orchestration/langgraph/memo_store.py` — the complete
store with `put`/`get`/`get_latest`/`list_entries` (the bundled store of
`execution/langgraph/memo_store.py` defines only `put`/`get`; see the claim-C1
section below).  The SQLite table is a list of rows with AUTOINCREMENT ids;
the UNIQUE index on `(run_id, namespace, key)` upserts in place, keeping the
row id. -/

structure MemoEntry where
  id : Nat
  run_id : String
  ns : String
  key : String
  value : Json
  value_hash : String
  source_tool : String
  step : Nat
  created_at : String

structure MemoStore where
  entries : List MemoEntry
  nextId : Nat

def MemoStore.empty : MemoStore := ⟨[], 1⟩

structure PutResult where
  inserted : Bool
  run_id : String
  key : String
  ns : String
  value_hash : String

structure MemoLookupResult where
  found : Bool
  run_id : String
  key : String
  ns : String
  value : Option Json
  value_hash : Option String

/-- `SQLiteMemoStore.put`: upsert on `(run_id, namespace, key)`.  Timestamps
(`utc_now_iso`) are not observable in any claim and are modelled as `""`. -/
def MemoStore.put (m : MemoStore) (run_id key : String) (value : Json)
    (ns : String := "run") (source_tool : String := "memoize") (step : Nat := 0)
    (created_at : String := "") : PutResult × MemoStore :=
  let value_hash := hash_json value
  let timestamp := created_at
  let res : PutResult := ⟨true, run_id, key, ns, value_hash⟩
  if m.entries.any (fun e => e.run_id = run_id && e.ns = ns && e.key = key) then
    (res,
      { m with
        entries := m.entries.map (fun e =>
          if e.run_id = run_id && e.ns = ns && e.key = key then
            { e with value := value, value_hash := value_hash,
                     source_tool := source_tool, step := step, created_at := timestamp }
          else e) })
  else
    (res,
      { entries := m.entries ++
          [⟨m.nextId, run_id, ns, key, value, value_hash, source_tool, step, timestamp⟩],
        nextId := m.nextId + 1 })

/-- `SQLiteMemoStore.get`: lookup by `(run_id, namespace, key)` (unique). -/
def MemoStore.get (m : MemoStore) (run_id key : String) (ns : String := "run") :
    MemoLookupResult :=
  match m.entries.find? (fun e => e.run_id = run_id && e.ns = ns && e.key = key) with
  | none => ⟨false, run_id, key, ns, none, none⟩
  | some e => ⟨true, run_id, key, ns, some e.value, some e.value_hash⟩

/-- `SQLiteMemoStore.get_latest`: the matching row with the largest id
(`ORDER BY id DESC LIMIT 1`); row ids increase with insertion order. -/
def MemoStore.get_latest (m : MemoStore) (key : String) (ns : String := "run") :
    MemoLookupResult :=
  match (m.entries.reverse).find? (fun e => e.ns = ns && e.key = key) with
  | none => ⟨false, "", key, ns, none, none⟩
  | some e => ⟨true, e.run_id, key, ns, some e.value, some e.value_hash⟩

/-- One row of `SQLiteMemoStore.list_entries` output. -/
structure MemoListEntry where
  key : String
  value_hash : String
  source_tool : String
  step : Nat
  created_at : String

/-- Stable insertion by ascending `step` (ties keep earlier-id rows first). -/
def insertByStep (x : MemoListEntry) : List MemoListEntry → List MemoListEntry
  | [] => [x]
  | y :: t => if y.step ≤ x.step then y :: insertByStep x t else x :: y :: t

/-- `SQLiteMemoStore.list_entries`: rows of the run/namespace ordered by
`(step ASC, id ASC)`; the entry list is already in ascending id order. -/
def MemoStore.list_entries (m : MemoStore) (run_id : String) (ns : String := "run") :
    List MemoListEntry :=
  ((m.entries.filter (fun e => e.run_id = run_id && e.ns = ns)).map
    (fun e => MemoListEntry.mk e.key e.value_hash e.source_tool e.step e.created_at)).foldl
    (fun acc x => insertByStep x acc) []

/-! ## Memoization policy (`execution/langgraph/policy.py`) -/

structure MemoizationPolicy where
  max_policy_retries : Nat := 2

/-- `MemoizationPolicy.requires_memoization`. -/
def requires_memoization (tool_name : String) (args result : Json) : Bool :=
  if tool_name ≠ "write_file" then false
  else
    let path := pyLower (jsonGetStr args "path" "")
    let content := jsonGetStr args "content" ""
    if pyContains path "fib" then true
    else if 400 ≤ pyLen content then true
    else if 20 < countChar content ',' then true
    else
      match result.get? "result" with
      | some r =>
        if pyContains (pyLower r.pyStr) "wrote" then
          decide (0 < pyLen content) && decide (200 ≤ pyLen content)
        else false
      | none => false

/-- `MemoizationPolicy.suggested_memo_key`. -/
def suggested_memo_key (tool_name : String) (args result : Json) : String :=
  let path := pyStrip (jsonGetStr args "path" "")
  if tool_name = "write_file" && path ≠ "" then "write_file:" ++ path
  else
    tool_name ++ ":" ++
      ⟨(hash_json (Json.mkObj [("args", args), ("result", result)])).data.take 12⟩

/-! ## Tool adapters

`execution/langgraph/tools_registry.py` plus the leaf tools the orchestrator
core executes in the verified scenarios.  The remaining leaf tools
(`sort_array`, `string_ops`, …) are declared out of the verified core by the
spec (§1, "catalogue of leaf tools" is out of scope); they are registered by
name (for the unknown-tool check and duplicate guard) but no verified claim
executes them. -/

def toolNames : List String :=
  ["repeat_message", "sort_array", "string_ops", "math_stats", "write_file",
   "memoize", "retrieve_memo", "task_list_parser", "text_analysis",
   "data_analysis", "json_parser", "regex_matcher"]

/-- `agentic_workflows/tools/write_file.py::WriteFileTool.execute`.  The file
write itself (side effect) is modelled as always succeeding. -/
def write_file_execute (args : Json) : Json :=
  let path := jsonGetStr args "path" ""
  let content := jsonGetStr args "content" ""
  if path = "" then Json.mkObj [("error", .str "path is required")]
  else if content = "" then Json.mkObj [("error", .str "content is required")]
  else
    Json.mkObj [("result", .str ("Successfully wrote " ++ toString (pyLen content) ++
      " characters to " ++ path))]

/-- `tools_registry.py::MemoizeStoreTool.execute`. -/
def memoize_execute (m : MemoStore) (args : Json) : Json × MemoStore :=
  let key := pyStrip (jsonGetStr args "key" "")
  let ns0 := pyStrip (jsonGetStr args "namespace" "run")
  let ns := if ns0 = "" then "run" else ns0
  let run_id := pyStrip (jsonGetStr args "run_id" "")
  let st0 := pyStrip (jsonGetStr args "source_tool" "memoize")
  let source_tool := if st0 = "" then "memoize" else st0
  let step := match args.get? "step" with
    | some (.int n) => n.toNat
    | _ => 0
  if key = "" then (Json.mkObj [("error", .str "key is required")], m)
  else
    match args.get? "value" with
    | none | some .null => (Json.mkObj [("error", .str "value is required")], m)
    | some value =>
      if run_id = "" then (Json.mkObj [("error", .str "run_id is required")], m)
      else
        let (put_result, m') := m.put run_id key value ns source_tool step
        (Json.mkObj
          [("result", .str "memoized"),
           ("key", .str put_result.key),
           ("namespace", .str put_result.ns),
           ("value_hash", .str put_result.value_hash),
           ("run_id", .str put_result.run_id)], m')

/-- `tools_registry.py::RetrieveMemoTool.execute`. -/
def retrieve_memo_execute (m : MemoStore) (args : Json) : Json :=
  let key := pyStrip (jsonGetStr args "key" "")
  let ns0 := pyStrip (jsonGetStr args "namespace" "run")
  let ns := if ns0 = "" then "run" else ns0
  let run_id := pyStrip (jsonGetStr args "run_id" "")
  if key = "" then Json.mkObj [("error", .str "key is required")]
  else if run_id = "" then Json.mkObj [("error", .str "run_id is required")]
  else
    let lookup := m.get run_id key ns
    if !lookup.found then
      Json.mkObj [("found", .bool false), ("key", .str key), ("namespace", .str ns)]
    else
      Json.mkObj
        [("found", .bool true), ("key", .str key), ("namespace", .str ns),
         ("value", lookup.value.getD .null),
         ("value_hash", .str (lookup.value_hash.getD "")),
         ("run_id", .str lookup.run_id)]

/-- `tools/echo.py::EchoTool.execute`. -/
def repeat_message_execute (args : Json) : Json :=
  Json.mkObj [("echo", (args.get? "message").getD (.str ""))]

/-- Tool dispatch (`self.tools[tool_name].execute(tool_args)`); the leaf tools
outside the verified core surface an error map, which the orchestrator treats
as a completed-but-failed call — no verified claim reaches them. -/
def toolExecute (name : String) (args : Json) (m : MemoStore) : Json × MemoStore :=
  if name = "write_file" then (write_file_execute args, m)
  else if name = "memoize" then memoize_execute m args
  else if name = "retrieve_memo" then (retrieve_memo_execute m args, m)
  else if name = "repeat_message" then (repeat_message_execute args, m)
  else (Json.mkObj [("error", .str "tool not modelled")], m)

/-! ## Text extraction helpers (`graph.py`)

Each regex of the source is hand-compiled to a character scanner with the same
search semantics (leftmost match, greedy runs).  Scanners that skip a whole
matched run carry a fuel argument initialized to the text length, which always
suffices since every step consumes at least one character. -/

def isQuoteChar (c : Char) : Bool := c = '"' || c = '\''

def isAlnumAscii (c : Char) : Bool :=
  ('A' ≤ c && c ≤ 'Z') || ('a' ≤ c && c ≤ 'z') || c.isDigit

/-- `re.search(r"[\"']([^\"']+)[\"']", text)`: first quote followed by one or
more non-quote characters and another quote; the capture is the run between
the quotes. -/
def searchQuoted : List Char → Option (List Char)
  | [] => none
  | c :: cs =>
    if isQuoteChar c then
      let body := cs.takeWhile (fun d => !isQuoteChar d)
      let rest := cs.dropWhile (fun d => !isQuoteChar d)
      match rest with
      | [] => none
      | _ :: _ => if body.isEmpty then searchQuoted cs else some body
    else searchQuoted cs

/-- `graph.py::_extract_quoted_text`. -/
def extract_quoted_text (text : String) : String :=
  match searchQuoted text.data with
  | none => ""
  | some body => pyStrip ⟨body⟩

/-- `re.findall(r"-?\d+", text)` mapped through `int` (leftmost,
non-overlapping, greedy digit runs, optional adjacent leading minus). -/
def findallIntsF : Nat → List Char → List Int
  | 0, _ => []
  | _, [] => []
  | fuel + 1, '-' :: cs =>
    if (cs.headD ' ').isDigit then
      (-(digitsToNat (cs.takeWhile Char.isDigit) : Int)) ::
        findallIntsF fuel (cs.dropWhile Char.isDigit)
    else findallIntsF fuel cs
  | fuel + 1, c :: cs =>
    if c.isDigit then
      (digitsToNat ((c :: cs).takeWhile Char.isDigit) : Int) ::
        findallIntsF fuel ((c :: cs).dropWhile Char.isDigit)
    else findallIntsF fuel cs

/-- `graph.py::_extract_numbers_from_text`. -/
def extract_numbers_from_text (text : String) : List Int :=
  findallIntsF text.data.length text.data

/-- Match a literal, returning the remainder. -/
def matchLit (lit : String) (cs : List Char) : Option (List Char) :=
  if lit.data.isPrefixOf cs then some (cs.drop lit.length) else none

/-- Match `\s+` (greedy), returning the remainder. -/
def matchWs1 (cs : List Char) : Option (List Char) :=
  let ws := cs.takeWhile pyIsSpace
  if ws.isEmpty then none else some (cs.dropWhile pyIsSpace)

/-- After a digit run: `(?:st|nd|rd|th)\s+number`. -/
def ordinalNumberTail (cs : List Char) : Bool :=
  match (matchLit "st" cs).orElse (fun _ => (matchLit "nd" cs).orElse (fun _ =>
      (matchLit "rd" cs).orElse (fun _ => matchLit "th" cs))) with
  | none => false
  | some rest =>
    match matchWs1 rest with
    | none => false
    | some rest2 => (matchLit "number" rest2).isSome

/-- After a digit run: `\s+(?:numbers|terms)`. -/
def numbersTermsTail (cs : List Char) : Bool :=
  match matchWs1 cs with
  | none => false
  | some rest => (matchLit "numbers" rest).isSome || (matchLit "terms" rest).isSome

/-- After a digit run: `\s+(?:number|numbers|terms)`. -/
def numberNumbersTermsTail (cs : List Char) : Bool :=
  match matchWs1 cs with
  | none => false
  | some rest =>
    (matchLit "number" rest).isSome || (matchLit "numbers" rest).isSome ||
      (matchLit "terms" rest).isSome

/-- Search for a digit run whose tail satisfies `tail` (used by the count
patterns anchored on `(\d+)`); a failed attempt resumes after the run, which
is equivalent to Python's position-by-position search because the tail check
only depends on the text after the maximal digit run. -/
def searchDigitsThen (tail : List Char → Bool) : Nat → List Char → Option Nat
  | 0, _ => none
  | _, [] => none
  | fuel + 1, c :: cs =>
    if c.isDigit then
      let ds := (c :: cs).takeWhile Char.isDigit
      let rest := (c :: cs).dropWhile Char.isDigit
      if tail rest then some (digitsToNat ds) else searchDigitsThen tail fuel rest
    else searchDigitsThen tail fuel cs

/-- Search `first\s+(\d+)\s+(?:numbers|terms)`. -/
def searchFirstCount : Nat → List Char → Option Nat
  | 0, _ => none
  | _, [] => none
  | fuel + 1, c :: cs =>
    let attempt : Option Nat :=
      match matchLit "first" (c :: cs) with
      | none => none
      | some r1 =>
        match matchWs1 r1 with
        | none => none
        | some r2 =>
          let ds := r2.takeWhile Char.isDigit
          if ds.isEmpty then none
          else if numbersTermsTail (r2.dropWhile Char.isDigit) then
            some (digitsToNat ds)
          else none
    match attempt with
    | some v => some v
    | none => searchFirstCount fuel cs

/-- Search `until\s+the\s+(\d+)\s+(?:number|numbers|terms)`. -/
def searchUntilTheCount : Nat → List Char → Option Nat
  | 0, _ => none
  | _, [] => none
  | fuel + 1, c :: cs =>
    let attempt : Option Nat :=
      match matchLit "until" (c :: cs) with
      | none => none
      | some r1 =>
        match matchWs1 r1 with
        | none => none
        | some r2 =>
          match matchLit "the" r2 with
          | none => none
          | some r3 =>
            match matchWs1 r3 with
            | none => none
            | some r4 =>
              let ds := r4.takeWhile Char.isDigit
              if ds.isEmpty then none
              else if numberNumbersTermsTail (r4.dropWhile Char.isDigit) then
                some (digitsToNat ds)
              else none
    match attempt with
    | some v => some v
    | none => searchUntilTheCount fuel cs

/-- The first of the four count patterns of `graph.py::_extract_fibonacci_count`
that matches the lower-cased mission, with its captured value. -/
def fibonacciCountPattern (mission : String) : Option Nat :=
  let cs := (pyLower mission).data
  let fuel := cs.length
  match searchDigitsThen ordinalNumberTail fuel cs with
  | some v => some v
  | none =>
    match searchFirstCount fuel cs with
    | some v => some v
    | none =>
      match searchUntilTheCount fuel cs with
      | some v => some v
      | none => searchDigitsThen numbersTermsTail fuel cs

/-- `graph.py::_extract_fibonacci_count`: matched value clamped to ≥ 2,
default 100. -/
def extract_fibonacci_count (mission : String) : Nat :=
  match fibonacciCountPattern mission with
  | some v => max 2 v
  | none => 100

/-- Characters of the unquoted-path class `[A-Za-z0-9_./\\-]`. -/
def isPathChar (c : Char) : Bool :=
  isAlnumAscii c || c = '_' || c = '.' || c = '/' || c = '\\' || c = '-'

/-- Positions (0-based, within the run) of every `'.'` directly followed by an
ASCII alphanumeric character. -/
def dotPositions : List Char → Nat → List Nat
  | [], _ => []
  | '.' :: d :: rest, i =>
    if isAlnumAscii d then i :: dotPositions (d :: rest) (i + 1)
    else dotPositions (d :: rest) (i + 1)
  | _ :: rest, i => dotPositions rest (i + 1)

/-- Match `(/?[A-Za-z0-9_./\\-]+\.[A-Za-z0-9]+)` inside one maximal path-char
run: backtracking picks the rightmost dot (at offset ≥ 1) followed by at least
one alphanumeric; the match extends through the greedy alphanumeric run. -/
def runPathMatch (run : List Char) : Option (List Char) :=
  match ((dotPositions run 0).filter (fun i => 1 ≤ i)).getLast? with
  | none => none
  | some j =>
    let after := run.drop (j + 1)
    some (run.take (j + 1) ++ after.takeWhile isAlnumAscii)

/-- Search the unquoted-path regex over the whole text (leftmost maximal
path-char run containing a valid dot split wins). -/
def searchUnquotedPath : Nat → List Char → Option (List Char)
  | 0, _ => none
  | _, [] => none
  | fuel + 1, c :: cs =>
    if isPathChar c then
      let run := (c :: cs).takeWhile isPathChar
      let rest := (c :: cs).dropWhile isPathChar
      match runPathMatch run with
      | some m => some m
      | none => searchUnquotedPath fuel rest
    else searchUnquotedPath fuel cs

/-- Quoted-path body check for `[\"']([^\"']+\.[A-Za-z0-9]+)[\"']`: the body
must end in an alphanumeric run preceded by a dot with at least one character
before the dot. -/
def quotedPathBodyOk (body : List Char) : Bool :=
  let rev := body.reverse
  let suffix := rev.takeWhile isAlnumAscii
  match rev.dropWhile isAlnumAscii with
  | '.' :: more => !suffix.isEmpty && !more.isEmpty
  | _ => false

/-- Search the quoted-path regex (first quote whose body qualifies; the
terminating quote of a failed body is retried as an opening quote, as in
Python's position-by-position search). -/
def searchQuotedPath : Nat → List Char → Option (List Char)
  | 0, _ => none
  | _, [] => none
  | fuel + 1, c :: cs =>
    if isQuoteChar c then
      let body := cs.takeWhile (fun d => !isQuoteChar d)
      let rest := cs.dropWhile (fun d => !isQuoteChar d)
      match rest with
      | [] => none
      | _ :: _ =>
        if !body.isEmpty && quotedPathBodyOk body then some body
        else searchQuotedPath fuel rest
    else searchQuotedPath fuel cs

/-- `graph.py::_extract_write_path_from_mission`. -/
def extract_write_path_from_mission (mission : String) : String :=
  match searchQuotedPath mission.data.length mission.data with
  | some body => pyStrip ⟨body⟩
  | none =>
    match searchUnquotedPath mission.data.length mission.data with
    | some m => pyRstrip (pyStrip ⟨m⟩) ['.', ',', ';', ':']
    | none => ""

/-- `graph.py::_is_unrecoverable_plan_error`: the first two tuple entries
(`"model"`, `"not found"`) only fire as a pair; the slice `[2:]` supplies the
five stand-alone markers. -/
def is_unrecoverable_plan_error (error_text : String) : Bool :=
  let normalized := pyLower error_text
  if pyContains normalized "model" && pyContains normalized "not found" then true
  else
    pyContains normalized "invalid api key" ||
    pyContains normalized "authentication" ||
    pyContains normalized "permission" ||
    pyContains normalized "insufficient_quota" ||
    pyContains normalized "rate limit exceeded"

/-! ## Run state (`execution/langgraph/state_schema.py`)

The Python run state is a dict; its fixed keys become structure fields.
`policy_flags` is a dict read exclusively through `.get(key, default)`; it is
modelled as a structure whose field defaults are those lookup defaults (the
`memo_required*` keys that `ensure_state_defaults` installs are total fields).
`retry_counts` keeps its dict representation because the set of present keys
is observable (claim C10).  Checkpoint rows record `(step, node_name)`; the
serialized state blob and timestamp of `SQLiteCheckpointStore.save` are
write-only diagnostics. -/

structure ToolRecord where
  call : Nat
  tool : String
  args : Json
  result : Json

structure MemoEvent where
  key : String
  ns : String
  source_tool : String
  step : Nat
  value_hash : String
  created_at : String

structure MissionReport where
  mission_id : Nat
  mission : String
  used_tools : List String
  tool_results : List (String × Json)
  result : String

structure PolicyFlags where
  memo_required : Bool := false
  memo_required_key : String := ""
  memo_required_reason : String := ""
  memo_retrieve_hits : Nat := 0
  memo_retrieve_misses : Nat := 0
  cache_reuse_hits : Nat := 0
  cache_reuse_misses : Nat := 0
  planner_timeout_mode : Bool := false
  last_tool_name : String := ""
  last_tool_args : Json := .obj .nil
  last_tool_result : Json := .obj .nil

structure RunState where
  run_id : String
  step : Nat
  messages : List (String × String)
  missions : List String
  mission_reports : List MissionReport
  active_mission_index : Int
  completed_tasks : List String
  tool_history : List ToolRecord
  memo_events : List MemoEvent
  retry_counts : List (String × Int)
  policy_flags : PolicyFlags
  seen_tool_signatures : List String
  tool_call_counts : List (String × Nat)
  pending_action : Option Json
  final_answer : String
  checkpoints : List (Nat × String)

/-- `retry_counts.get(k, 0)`. -/
def rcGet (rc : List (String × Int)) (k : String) : Int :=
  match rc.find? (fun kv => kv.1 = k) with
  | some kv => kv.2
  | none => 0

/-- Whether the key is present at all (observable in claim C10). -/
def rcHas (rc : List (String × Int)) (k : String) : Bool :=
  (rc.find? (fun kv => kv.1 = k)).isSome

/-- Python dict assignment on `retry_counts`. -/
def rcSet (rc : List (String × Int)) (k : String) (v : Int) : List (String × Int) :=
  if rcHas rc k then rc.map (fun kv => if kv.1 = k then (kv.1, v) else kv)
  else rc ++ [(k, v)]

/-- Python `dict.setdefault(k, 0)` on `retry_counts`. -/
def rcSetdefault (rc : List (String × Int)) (k : String) : List (String × Int) :=
  if rcHas rc k then rc else rc ++ [(k, 0)]

/-- `tool_call_counts` helpers (same dict semantics, `Nat` counters). -/
def tcGet (tc : List (String × Nat)) (k : String) : Nat :=
  match tc.find? (fun kv => kv.1 = k) with
  | some kv => kv.2
  | none => 0

def tcSet (tc : List (String × Nat)) (k : String) (v : Nat) : List (String × Nat) :=
  if (tc.find? (fun kv => kv.1 = k)).isSome then
    tc.map (fun kv => if kv.1 = k then (kv.1, v) else kv)
  else tc ++ [(k, v)]

/-- The `retry_counts` part of `state_schema.py::ensure_state_defaults` on an
already-typed state (all other keys are total fields here): setdefault
`invalid_json`, `memo_policy`, `duplicate_tool` to 0. -/
def ensureRetryDefaults (s : RunState) : RunState :=
  { s with retry_counts :=
      rcSetdefault (rcSetdefault (rcSetdefault s.retry_counts "invalid_json")
        "memo_policy") "duplicate_tool" }

/-- `state_schema.py::new_run_state` (uuid4 generation is not modelled; the
run id is supplied by the caller as `Run(user_input, run_id)` allows). -/
def new_run_state (system_prompt user_input run_id : String) : RunState where
  run_id := run_id
  step := 0
  messages := [("system", system_prompt), ("user", user_input)]
  missions := []
  mission_reports := []
  active_mission_index := -1
  completed_tasks := []
  tool_history := []
  memo_events := []
  retry_counts := [("invalid_json", 0), ("memo_policy", 0)]
  policy_flags := {}
  seen_tool_signatures := []
  tool_call_counts := []
  pending_action := none
  final_answer := ""
  checkpoints := []

/-- `graph.py::_initialize_mission_reports`. -/
def initialize_mission_reports (missions : List String) : List MissionReport :=
  (missions.enum).map (fun mi =>
    { mission_id := mi.1 + 1, mission := mi.2,
      used_tools := [], tool_results := [], result := "" })

/-- `graph.py::_next_incomplete_mission`. -/
def next_incomplete_mission (s : RunState) : String :=
  if s.completed_tasks.length < s.missions.length then
    s.missions.getD s.completed_tasks.length ""
  else ""

/-- `graph.py::_all_missions_completed`. -/
def all_missions_completed (s : RunState) : Bool :=
  if s.missions.isEmpty then false
  else s.missions.length ≤ s.completed_tasks.length

/-- `graph.py::_progress_hint_message`. -/
def progress_hint_message (s : RunState) : String :=
  if s.missions.isEmpty then ""
  else
    let completed := toString s.completed_tasks.length
    let total := toString s.missions.length
    let next := next_incomplete_mission s
    if next ≠ "" then
      "Progress: completed " ++ completed ++ "/" ++ total ++ " tasks. Next task: " ++ next
    else
      "Progress: completed " ++ completed ++ "/" ++ total ++ " tasks. Emit finish now."

/-- `graph.py::_build_auto_finish_answer`. -/
def build_auto_finish_answer (s : RunState) : String :=
  let parts := s.mission_reports.foldr
    (fun r acc =>
      let mission := pyStrip r.mission
      let result := pyStrip r.result
      if mission ≠ "" && result ≠ "" then (mission ++ " -> " ++ result) :: acc else acc)
    []
  String.intercalate " " ("All tasks completed." :: parts)

/-! ## Argument normalization and planner-action validation (`graph.py`) -/

def JsonFields.remove : JsonFields → String → JsonFields
  | .nil, _ => .nil
  | .cons k v t, key => if k = key then t else .cons k v (t.remove key)

/-- `normalized[dst] = normalized.pop(src)` guarded by `dst` being absent,
`src` present, and the value satisfying the `isinstance` check. -/
def moveKey (fs : JsonFields) (dst src : String) (check : Json → Bool) : JsonFields :=
  match fs.lookup dst with
  | some _ => fs
  | none =>
    match fs.lookup src with
    | some v => if check v then (fs.remove src).set dst v else fs
    | none => fs

def isJsonStr : Json → Bool
  | .str _ => true
  | _ => false

def isJsonList : Json → Bool
  | .arr _ => true
  | _ => false

/-- `graph.py::_normalize_tool_args`. -/
def normalize_tool_args (tool_name : String) (args : Json) : Json :=
  match args with
  | .obj fs =>
    if tool_name = "sort_array" then
      .obj (moveKey (moveKey fs "items" "array" isJsonList) "items" "values" isJsonList)
    else if tool_name = "repeat_message" then
      .obj (moveKey fs "message" "text" isJsonStr)
    else if tool_name = "string_ops" then
      .obj (moveKey fs "operation" "op" isJsonStr)
    else if tool_name = "write_file" then
      .obj (moveKey (moveKey (moveKey (moveKey fs "path" "file_path" isJsonStr)
        "path" "filename" isJsonStr) "content" "text" isJsonStr) "content" "data" isJsonStr)
    else if tool_name = "memoize" then
      .obj (moveKey fs "value" "data" (fun _ => true))
    else if tool_name = "text_analysis" then
      .obj (moveKey fs "operation" "op" isJsonStr)
    else if tool_name = "data_analysis" then
      .obj (moveKey (moveKey fs "numbers" "data" isJsonList) "numbers" "values" isJsonList)
    else if tool_name = "regex_matcher" then
      .obj (moveKey fs "pattern" "regex" isJsonStr)
    else .obj fs
  | j => j

/-- Keys of an action payload are a subset of the allowed pydantic fields
(`ConfigDict(extra="forbid")`). -/
def keysSubset (fs : JsonFields) (allowed : List String) : Bool :=
  fs.keys.all (fun k => allowed.contains k)

/-- `graph.py::_validate_action` over an already-parsed JSON payload (the
scripted providers of the verified scenarios serialize exactly one JSON
object, so `_parse_action_json` recovers the same payload).  Returns the
`model_dump()` of the validated `ToolAction`/`FinishAction`, or the raised
`ValueError` text. -/
def validate_action (tools : List String) (payload : Json) : Except String Json :=
  match payload with
  | .obj fs0 =>
    let data0 := Json.obj fs0
    let action_alias := pyLower (pyStrip (jsonGetStr data0 "action" ""))
    let fs1 :=
      if !(fs0.lookup "tool_name").isSome &&
          (match fs0.lookup "action" with | some (.str _) => true | _ => false) &&
          tools.contains action_alias then
        ((JsonFields.nil.set "action" (.str "tool")).set "tool_name"
          (.str action_alias)).set "args" ((fs0.lookup "args").getD (Json.mkObj []))
      else fs0
    let fs2 :=
      if (match fs1.lookup "action" with | some (.str a) => a = "tool" | _ => false) &&
          !(fs1.lookup "tool_name").isSome &&
          (match fs1.lookup "name" with | some (.str _) => true | _ => false) then
        fs1.set "tool_name" ((fs1.lookup "name").getD .null)
      else fs1
    let action := pyLower (pyStrip (jsonGetStr (Json.obj fs2) "action" ""))
    let fs3 :=
      if action = "tool" || action = "finish" then fs2.set "action" (.str action)
      else fs2
    if action = "tool" then
      match fs3.lookup "tool_name", fs3.lookup "args" with
      | some (.str tn), some (.obj afs) =>
        if keysSubset fs3 ["action", "tool_name", "args"] then
          .ok (Json.mkObj [("action", .str "tool"), ("tool_name", .str tn),
            ("args", .obj afs)])
        else .error "tool schema error: extra fields"
      | _, _ => .error "tool schema error: invalid fields"
    else if action = "finish" then
      match fs3.lookup "answer" with
      | some (.str ans) =>
        if keysSubset fs3 ["action", "answer"] then
          .ok (Json.mkObj [("action", .str "finish"), ("answer", .str ans)])
        else .error "finish schema error: extra fields"
      | _ => .error "finish schema error: invalid fields"
    else .error "action must be 'tool' or 'finish'"
  | _ => .error "action payload must be a JSON object"

/-! ## Deterministic fallback generator (`graph.py::_deterministic_fallback_action`) -/

/-- The mission-keyword dispatch of `graph.py::_deterministic_fallback_action`
(a function of the stripped active mission text alone). -/
def mission_fallback_action (mission : String) : Option Json :=
  let mission_lower := pyLower mission
  let repeat_text := extract_quoted_text mission
  if pyContains mission_lower "repeat" && repeat_text ≠ "" then
    some (Json.mkObj [("action", .str "tool"), ("tool_name", .str "repeat_message"),
      ("args", Json.mkObj [("message", .str repeat_text)])])
  else if pyContains mission_lower "sort" &&
      !(extract_numbers_from_text mission).isEmpty then
    let numbers := extract_numbers_from_text mission
    let ord := if pyContains mission_lower "desc" then "desc" else "asc"
    some (Json.mkObj [("action", .str "tool"), ("tool_name", .str "sort_array"),
      ("args", Json.mkObj
        [("items", Json.mkArr (numbers.map Json.int)), ("order", .str ord)])])
  else if pyContains mission_lower "uppercase" && repeat_text ≠ "" then
    some (Json.mkObj [("action", .str "tool"), ("tool_name", .str "string_ops"),
      ("args", Json.mkObj [("text", .str repeat_text),
        ("operation", .str "uppercase")])])
  else if pyContains mission_lower "lowercase" && repeat_text ≠ "" then
    some (Json.mkObj [("action", .str "tool"), ("tool_name", .str "string_ops"),
      ("args", Json.mkObj [("text", .str repeat_text),
        ("operation", .str "lowercase")])])
  else if pyContains mission_lower "reverse" && repeat_text ≠ "" then
    some (Json.mkObj [("action", .str "tool"), ("tool_name", .str "string_ops"),
      ("args", Json.mkObj [("text", .str repeat_text),
        ("operation", .str "reverse")])])
  else if pyContains mission_lower "fibonacci" &&
      (pyContains mission_lower "write" || pyContains mission_lower "write_file") then
    let path0 := extract_write_path_from_mission mission
    let path := if path0 = "" then "fib.txt" else path0
    let count := extract_fibonacci_count mission
    some (Json.mkObj [("action", .str "tool"), ("tool_name", .str "write_file"),
      ("args", Json.mkObj [("path", .str path),
        ("content", .str (fibonacci_csv count))])])
  else none

def deterministic_fallback_action (s : RunState) : Option Json :=
  let flags := s.policy_flags
  let memoBranch : Option Json :=
    if flags.memo_required then
      let key := pyStrip flags.memo_required_key
      if key ≠ "" then
        let source_tool0 := pyStrip flags.last_tool_name
        let source_tool := if source_tool0 = "" then "memoize" else source_tool0
        let value : Json :=
          match flags.last_tool_result with
          | .obj .nil => Json.mkObj [("status", .str "memoized_by_fallback")]
          | r => r
        some (Json.mkObj
          [("action", .str "tool"), ("tool_name", .str "memoize"),
           ("args", Json.mkObj
             [("key", .str key), ("value", value), ("run_id", .str s.run_id),
              ("source_tool", .str source_tool)])])
      else none
    else none
  match memoBranch with
  | some a => some a
  | none =>
    if all_missions_completed s then
      some (Json.mkObj [("action", .str "finish"),
        ("answer", .str (build_auto_finish_answer s))])
    else
      let mission := pyStrip (next_incomplete_mission s)
      if mission = "" then
        some (Json.mkObj [("action", .str "finish"),
          ("answer", .str (build_auto_finish_answer s))])
      else mission_fallback_action mission

/-! ## Mission tracking helpers (`graph.py`) -/

def emptyMissionReport : MissionReport := ⟨0, "", [], [], ""⟩

/-- `path.replace("\\", "/").rsplit("/", 1)[-1]`. -/
def basenameOf (path : String) : String :=
  let norm := path.data.map (fun c => if c = '\\' then '/' else c)
  ⟨(norm.reverse.takeWhile (fun c => c ≠ '/')).reverse⟩

/-- `graph.py::_memo_lookup_candidates_for_action`. -/
def memo_lookup_candidates_for_action (tool_name : String) (tool_args : Json) :
    List String :=
  if tool_name ≠ "write_file" then []
  else
    let path := pyStrip (jsonGetStr tool_args "path" "")
    if path = "" then []
    else
      let exact_key := suggested_memo_key "write_file"
        (Json.mkObj [("path", .str path)]) (Json.mkObj [])
      let basename := pyStrip (basenameOf path)
      if basename ≠ "" && basename ≠ path then
        [exact_key, suggested_memo_key "write_file"
          (Json.mkObj [("path", .str basename)]) (Json.mkObj [])]
      else [exact_key]

/-- `graph.py::_has_attempted_memo_lookup`. -/
def has_attempted_memo_lookup (s : RunState) (candidate_keys : List String) : Bool :=
  if candidate_keys.isEmpty then true
  else s.tool_history.any (fun ev =>
    ev.tool = "retrieve_memo" && candidate_keys.contains (jsonGetStr ev.args "key" ""))

/-- `graph.py::_cache_key_for_path`. -/
def cache_key_for_path (path : String) : String := "write_file_input:" ++ path

/-- `graph.py::_write_cache_candidates`. -/
def write_cache_candidates (path : String) : List String :=
  if pyStrip path = "" then []
  else
    let basename := pyStrip (basenameOf path)
    if basename ≠ "" && basename ≠ path then
      [cache_key_for_path path, cache_key_for_path basename]
    else [cache_key_for_path path]

/-- `graph.py::_record_mission_tool_event`. -/
def record_mission_tool_event (s0 : RunState) (tool_name : String) (tool_result : Json)
    (mission_index : Option Nat := none) : RunState :=
  let s :=
    if s0.mission_reports.isEmpty then
      { s0 with mission_reports := initialize_mission_reports ["Primary mission"],
                missions := ["Primary mission"], active_mission_index := -1 }
    else s0
  let reports := s.mission_reports
  let helper := tool_name = "memoize" || tool_name = "retrieve_memo"
  let completed := s.completed_tasks
  let index : Nat :=
    match mission_index with
    | some mi => min mi (reports.length - 1)
    | none =>
      if helper then
        let idx0 : Int := s.active_mission_index
        let nextLower := pyLower (next_incomplete_mission s)
        if tool_name = "memoize" && pyContains nextLower "memo" then
          min completed.length (reports.length - 1)
        else if tool_name = "memoize" && s.policy_flags.memo_required &&
            0 ≤ idx0 && idx0 < (reports.length : Int) then
          idx0.toNat
        else min completed.length (reports.length - 1)
      else min completed.length (reports.length - 1)
  let mission := reports.getD index emptyMissionReport
  let mission' :=
    { mission with
        used_tools := mission.used_tools ++ [tool_name],
        tool_results := mission.tool_results ++ [(tool_name, tool_result)],
        result := tool_result.pyStr }
  let completed' :=
    if !tool_result.hasKey "error" then
      let mission_text := pyStrip mission.mission
      let mtl := pyLower mission_text
      let should0 := !helper
      let should1 := should0 ||
        (tool_name = "retrieve_memo" &&
          (pyContains mtl "retrieve" || pyContains mtl "lookup" || pyContains mtl "memo"))
      let should := should1 || (tool_name = "memoize" && pyContains mtl "memo")
      if should && mission_text ≠ "" && !completed.contains mission_text then
        completed ++ [mission_text]
      else completed
    else completed
  { s with
      active_mission_index := (index : Int),
      mission_reports := reports.set index mission',
      completed_tasks := completed' }

/-- `bool(tool_result.get("found", False))` (Python truthiness; the retrieve
tool emits real booleans). -/
def jsonFoundFlag (tool_result : Json) : Bool :=
  match tool_result.get? "found" with
  | some (.bool b) => b
  | some .null | none => false
  | some _ => true

/-- `graph.py::_record_retrieve_memo_trace`. -/
def record_retrieve_memo_trace (s : RunState) (tool_result : Json) : RunState :=
  let found := jsonFoundFlag tool_result
  let key := jsonGetStr tool_result "key" ""
  let ns := jsonGetStr tool_result "namespace" "run"
  let value_hash := jsonGetStr tool_result "value_hash" ""
  let source_tool := if found then "retrieve_memo_hit" else "retrieve_memo_miss"
  let flags :=
    if found then
      { s.policy_flags with memo_retrieve_hits := s.policy_flags.memo_retrieve_hits + 1 }
    else
      { s.policy_flags with memo_retrieve_misses := s.policy_flags.memo_retrieve_misses + 1 }
  let newEvent : MemoEvent :=
    { key := key, ns := ns, source_tool := source_tool, step := s.step,
      value_hash := if value_hash = "" then "n/a" else value_hash, created_at := "" }
  { s with
      policy_flags := flags,
      memo_events := s.memo_events ++ [newEvent] }

/-- `graph.py::_mark_next_mission_complete_from_memo_hit`. -/
def mark_next_mission_complete_from_memo_hit (s : RunState) (memo_hit : Json) : RunState :=
  let mission_text := pyStrip (next_incomplete_mission s)
  if mission_text = "" then s
  else
    let completed :=
      if s.completed_tasks.contains mission_text then s.completed_tasks
      else s.completed_tasks ++ [mission_text]
    if s.mission_reports.isEmpty then { s with completed_tasks := completed }
    else
      let index := min (completed.length - 1) (s.mission_reports.length - 1)
      let report := s.mission_reports.getD index emptyMissionReport
      { s with completed_tasks := completed, active_mission_index := (index : Int),
               mission_reports := s.mission_reports.set index
                 { report with result := memo_hit.pyStr } }

/-- Checkpoint (`SQLiteCheckpointStore.save`): the model records the
`(step, node_name)` rows; the serialized state blob and timestamp are
write-only diagnostics never read back during a run. -/
def checkpointSave (s : RunState) (node_name : String) : RunState :=
  { s with checkpoints := s.checkpoints ++ [(s.step, node_name)] }

/-! ## Execute node (`graph.py::_execute_action`) and its helpers -/

/-- One candidate-key iteration of `graph.py::_cache_write_file_inputs`:
store the write inputs under the key (run "shared", namespace "cache") and
append the `write_file_cache` memo event. -/
def cacheWriteStep (path content : String) (sm : RunState × MemoStore)
    (key : String) : RunState × MemoStore :=
  let pr := sm.2.put "shared" key
    (Json.mkObj [("path", .str path), ("content", .str content)])
    "cache" "write_file_cache" sm.1.step
  ({ sm.1 with memo_events := sm.1.memo_events ++
      [{ key := pr.1.key, ns := pr.1.ns,
         source_tool := "write_file_cache", step := sm.1.step,
         value_hash := pr.1.value_hash, created_at := "" }] }, pr.2)

/-- `graph.py::_cache_write_file_inputs`. -/
def cache_write_file_inputs (s : RunState) (m : MemoStore) (tool_args : Json) :
    RunState × MemoStore :=
  let path := pyStrip (jsonGetStr tool_args "path" "")
  let content := jsonGetStr tool_args "content" ""
  if path = "" || content = "" then (s, m)
  else
    (write_cache_candidates path).foldl (cacheWriteStep path content) (s, m)

/-- `graph.py::_auto_lookup_before_write`: executes `retrieve_memo` for each
candidate key until a hit; the progress hint is computed once up front. -/
def auto_lookup_before_write (m : MemoStore) (progress_hint : String) :
    List String → RunState → Option Json × RunState
  | [], s => (none, s)
  | key :: rest, s =>
    let retrieve_args := Json.mkObj [("key", .str key), ("run_id", .str s.run_id)]
    let tool_result := retrieve_memo_execute m retrieve_args
    let s := record_retrieve_memo_trace s tool_result
    let tc' :=
      tcSet s.tool_call_counts "retrieve_memo" (tcGet s.tool_call_counts "retrieve_memo" + 1)
    let s := { s with tool_call_counts := tc' }
    let call_number := s.tool_history.length + 1
    let s := { s with tool_history := s.tool_history ++
      [{ call := call_number, tool := "retrieve_memo", args := retrieve_args,
         result := tool_result }] }
    let s := record_mission_tool_event s "retrieve_memo" tool_result
    let s := { s with messages := s.messages ++
      [("system", "TOOL_RESULT #" ++ toString call_number ++ " (retrieve_memo): " ++
        tool_result.dumps ++ "\n" ++ progress_hint)] }
    let found := jsonFoundFlag tool_result
    if found then (some tool_result, s)
    else auto_lookup_before_write m progress_hint rest s

inductive RunError where
  | memoizationPolicyViolation
  | recursionLimit
  deriving DecidableEq

/-- Memo-helper argument auto-injection of the execute node:
`tool_args.setdefault("run_id", …)` for `memoize`/`retrieve_memo` plus
`setdefault("step", …)` for `memoize`. -/
def inject_memo_defaults (run_id : String) (step : Nat) (tool_name : String)
    (a0 : Json) : Json :=
  let a1 :=
    if tool_name = "memoize" || tool_name = "retrieve_memo" then
      match a0 with
      | .obj fs => Json.obj (fs.setdefault "run_id" (.str run_id))
      | j => j
    else a0
  if tool_name = "memoize" then
    match a1 with
    | .obj fs => Json.obj (fs.setdefault "step" (.int step))
    | j => j
  else a1

/-- `signature = f"{tool_name}:{json.dumps(tool_args, sort_keys=True, default=str)}"`. -/
def tool_signature (tool_name : String) (tool_args : Json) : String :=
  tool_name ++ ":" ++ tool_args.dumps

def defaultProgressHint : String :=
  "Continue with the next task or finish when all tasks are complete."

/-- Lookup-hit branch of the execute node: skip the proposed write. -/
def execute_lookup_hit (tool_name : String) (memo_hit : Json) (s : RunState)
    (m : MemoStore) : Except RunError (RunState × MemoStore) :=
  let s := if tool_name = "write_file" then
      mark_next_mission_complete_from_memo_hit s memo_hit
    else s
  let s := { s with messages := s.messages ++
    [("system", "Memo hit found for this deterministic write. " ++
      "Skip recomputation and continue with remaining tasks.")] }
  let s := { s with pending_action := none }
  .ok (checkpointSave s "execute_lookup_hit_skip", m)

/-- Policy-gate branch of the execute node: memoization is required but a
non-memoize tool was proposed. -/
def execute_policy_gate (cfg : MemoizationPolicy) (tool_name : String)
    (s : RunState) (m : MemoStore) : Except RunError (RunState × MemoStore) :=
  let retry_count := (rcGet s.retry_counts "memo_policy").toNat + 1
  let s := { s with retry_counts := rcSet s.retry_counts "memo_policy" retry_count }
  if cfg.max_policy_retries < retry_count then
    .error .memoizationPolicyViolation
  else
    let required_key := s.policy_flags.memo_required_key
    let reason := s.policy_flags.memo_required_reason
    let s := { s with messages := s.messages ++
      [("system", "Memoization required before proceeding (" ++ reason ++ "). " ++
        "Call memoize now with key='" ++ required_key ++ "' and run_id='" ++
        s.run_id ++ "'.")] }
    let s := { s with pending_action := none }
    .ok (checkpointSave s "execute_policy_retry", m)

/-- Unknown-tool branch of the execute node. -/
def execute_unknown_tool (tool_name : String) (s : RunState) (m : MemoStore) :
    Except RunError (RunState × MemoStore) :=
  let s := { s with messages := s.messages ++
    [("system", "Unknown tool '" ++ tool_name ++ "'. Use one of: " ++
      String.intercalate ", " toolNames ++ ".")] }
  let s := { s with pending_action := none }
  .ok (checkpointSave s "execute_unknown_tool", m)

/-- Duplicate-signature branch of the execute node: the proposal is skipped
(no tool runs, no new history entry). -/
def execute_duplicate_tool (tool_name : String) (s : RunState) (m : MemoStore) :
    Except RunError (RunState × MemoStore) :=
  let rc' := rcSet s.retry_counts "duplicate_tool"
    (rcGet s.retry_counts "duplicate_tool" + 1)
  let s := { s with retry_counts := rc' }
  let next_mission := next_incomplete_mission s
  if next_mission = "" && all_missions_completed s then
    let s := { s with pending_action := some (Json.mkObj
      [("action", .str "finish"),
       ("answer", .str (build_auto_finish_answer s))]) }
    .ok (checkpointSave s "execute_duplicate_finish", m)
  else
    let guidance :=
      if next_mission ≠ "" then "Next incomplete task: " ++ next_mission ++ "."
      else "All listed tasks look complete. Emit finish now."
    let s := { s with messages := s.messages ++
      [("system", "Duplicate tool call detected for '" ++ tool_name ++
        "' with the same arguments. Do not repeat completed calls. " ++ guidance)] }
    let s := { s with pending_action := none }
    .ok (checkpointSave s "execute_duplicate_tool", m)

/-- The memoize bookkeeping of the execute node: a successful `memoize`
(result carries `value_hash`) appends exactly one memo event, clears the
`memo_required` flags and resets the `memo_policy` retry count. -/
def record_memoize_event (tool_name : String) (tool_args tool_result : Json)
    (s : RunState) : RunState :=
  if tool_name = "memoize" && tool_result.hasKey "value_hash" then
    let memoEvent : MemoEvent :=
      { key := jsonGetStr tool_result "key" "",
        ns := jsonGetStr tool_result "namespace" "run",
        source_tool := jsonGetStr tool_args "source_tool" "memoize",
        step := s.step,
        value_hash := jsonGetStr tool_result "value_hash" "",
        created_at := "" }
    let flags' :=
      { s.policy_flags with
          memo_required := false,
          memo_required_key := "",
          memo_required_reason := "" }
    { s with
        memo_events := s.memo_events ++ [memoEvent],
        policy_flags := flags',
        retry_counts := rcSet s.retry_counts "memo_policy" 0 }
  else s

/-- Fresh-signature branch of the execute node: record the signature, run the
tool, validate content, record history/mission/memo state. -/
def execute_run_tool (max_content_validation_retries : Nat) (tool_name : String)
    (tool_args : Json) (s : RunState) (m : MemoStore) :
    Except RunError (RunState × MemoStore) :=
  let signature := tool_signature tool_name tool_args
  let s := { s with seen_tool_signatures := s.seen_tool_signatures ++ [signature] }
  let (tool_result0, m) := toolExecute tool_name tool_args m
  let s := if tool_name = "retrieve_memo" then
      record_retrieve_memo_trace s tool_result0
    else s
  let validation_error := validate_tool_result_for_active_mission tool_name
    (tool_result0.hasKey "error") (next_incomplete_mission s)
    (jsonGetStr tool_args "content" "")
  let sr : RunState × Json :=
    match validation_error with
    | some ve =>
      let rcv := rcSet s.retry_counts "content_validation"
        (rcGet s.retry_counts "content_validation" + 1)
      ({ s with retry_counts := rcv },
       Json.mkObj [("error", .str "content_validation_failed"),
         ("details", .str ve)])
    | none => (s, tool_result0)
  let s := sr.1
  let tool_result := sr.2
  let tcAfter :=
    tcSet s.tool_call_counts tool_name (tcGet s.tool_call_counts tool_name + 1)
  let s := { s with tool_call_counts := tcAfter }
  let call_number := s.tool_history.length + 1
  let s := { s with tool_history := s.tool_history ++
    [{ call := call_number, tool := tool_name, args := tool_args,
       result := tool_result }] }
  let s := record_mission_tool_event s tool_name tool_result
  let hint0 := progress_hint_message s
  let progress_hint0 := if hint0 = "" then defaultProgressHint else hint0
  let progress_hint :=
    match validation_error with
    | some ve =>
      "Previous tool output failed deterministic content validation. " ++
        "Fix and rerun this task. " ++ ve
    | none => progress_hint0
  let s := { s with messages := s.messages ++
    [("system", "TOOL_RESULT #" ++ toString call_number ++ " (" ++ tool_name ++
      "): " ++ tool_result.dumps ++ "\n" ++ progress_hint)] }
  match validation_error with
  | some ve =>
    let s :=
      if max_content_validation_retries <
          (rcGet s.retry_counts "content_validation").toNat then
        { s with pending_action := some (Json.mkObj
          [("action", .str "finish"),
           ("answer", .str ("Run failed closed after repeated deterministic " ++
             "content validation failures. Last issue: " ++ ve))]) }
      else { s with pending_action := none }
    let s := { s with policy_flags := { s.policy_flags with
      last_tool_name := "", last_tool_args := Json.mkObj [],
      last_tool_result := Json.mkObj [] } }
    .ok (checkpointSave s "execute_content_validation", m)
  | none =>
    let sm : RunState × MemoStore :=
      if tool_name = "write_file" then cache_write_file_inputs s m tool_args
      else (s, m)
    let s := sm.1
    let m := sm.2
    let s := record_memoize_event tool_name tool_args tool_result s
    let flagsLast :=
      { s.policy_flags with
          last_tool_name := tool_name,
          last_tool_args := tool_args,
          last_tool_result := tool_result }
    let s := { s with policy_flags := flagsLast }
    let s := { s with pending_action := none }
    .ok (checkpointSave s "execute", m)

/-- `graph.py::_execute_action`.  Raising `MemoizationPolicyViolation` is the
`Except.error` branch. -/
def execute_action (cfg : MemoizationPolicy)
    (max_content_validation_retries : Nat) (s0 : RunState) (m : MemoStore) :
    Except RunError (RunState × MemoStore) :=
  let s := ensureRetryDefaults s0
  match s.pending_action with
  | none => .ok (s, m)
  | some action =>
    if jsonGetStr action "action" "" = "finish" then
      .ok ({ s with final_answer := jsonGetStr action "answer" "" }, m)
    else
      let tool_name := jsonGetStr action "tool_name" ""
      let tool_args0 := normalize_tool_args tool_name
        ((action.get? "args").getD (Json.mkObj []))
      let lookup_candidates := memo_lookup_candidates_for_action tool_name tool_args0
      let lookupStep : Option Json × RunState :=
        if !lookup_candidates.isEmpty && tool_name ≠ "retrieve_memo" &&
            !has_attempted_memo_lookup s lookup_candidates then
          let hint0 := progress_hint_message s
          let hint := if hint0 = "" then defaultProgressHint else hint0
          auto_lookup_before_write m hint lookup_candidates s
        else (none, s)
      match lookupStep with
      | (some memo_hit, s) => execute_lookup_hit tool_name memo_hit s m
      | (none, s) =>
        if s.policy_flags.memo_required && tool_name ≠ "memoize" then
          execute_policy_gate cfg tool_name s m
        else if !toolNames.contains tool_name then
          execute_unknown_tool tool_name s m
        else
          let tool_args := inject_memo_defaults s.run_id s.step tool_name tool_args0
          if s.seen_tool_signatures.contains (tool_signature tool_name tool_args) then
            execute_duplicate_tool tool_name s m
          else
            execute_run_tool max_content_validation_retries tool_name tool_args s m

/-! ## Policy node (`graph.py::_enforce_memo_policy`) -/

def enforce_memo_policy (s0 : RunState) : RunState :=
  let s := ensureRetryDefaults s0
  let last_tool_name := s.policy_flags.last_tool_name
  if last_tool_name = "" then s
  else if last_tool_name = "memoize" || last_tool_name = "retrieve_memo" then s
  else
    let last_args := s.policy_flags.last_tool_args
    let last_result := s.policy_flags.last_tool_result
    let s :=
      if requires_memoization last_tool_name last_args last_result then
        let memo_key := suggested_memo_key last_tool_name last_args last_result
        let flags' :=
          { s.policy_flags with
              memo_required := true,
              memo_required_key := memo_key,
              memo_required_reason := "heavy deterministic result from " ++ last_tool_name }
        let s := { s with policy_flags := flags' }
        { s with messages := s.messages ++
          [("system", "Policy check: memoize required for " ++ last_tool_name ++
            ". Next action must be memoize with key='" ++ memo_key ++
            "', value as the relevant output, and run_id='" ++ s.run_id ++ "'.")] }
      else s
    checkpointSave s "policy"

/-! ## Cache-reuse shortcut (`graph.py::_maybe_complete_next_write_from_cache`) -/

/-- The per-key loop body: on a `get_latest` hit whose payload carries a
non-empty string `content`, execute `write_file` directly, validate, and on
success record history/mission/memo-event state and stop. -/
def cacheReuseTryKeys (m : MemoStore) (mission target_path : String)
    (target_index : Nat) : List String → RunState → Option RunState
  | [], _ => none
  | key :: rest, s =>
    let lookup := m.get_latest key "cache"
    if !lookup.found then cacheReuseTryKeys m mission target_path target_index rest s
    else
      let cached_content :=
        match (lookup.value.getD .null).get? "content" with
        | some (.str c) => c
        | _ => ""
      if cached_content = "" then
        cacheReuseTryKeys m mission target_path target_index rest s
      else
        let write_args := Json.mkObj
          [("path", .str target_path), ("content", .str cached_content)]
        let tool_result := write_file_execute write_args
        let validation_error := validate_tool_result_for_active_mission "write_file"
          (tool_result.hasKey "error") (next_incomplete_mission s) cached_content
        match validation_error with
        | some _ => cacheReuseTryKeys m mission target_path target_index rest s
        | none =>
          let flags' :=
            { s.policy_flags with cache_reuse_hits := s.policy_flags.cache_reuse_hits + 1 }
          let s := { s with policy_flags := flags',
                            active_mission_index := (target_index : Int) }
          let tc' := tcSet s.tool_call_counts "write_file"
            (tcGet s.tool_call_counts "write_file" + 1)
          let s := { s with tool_call_counts := tc' }
          let call_number := s.tool_history.length + 1
          let s := { s with tool_history := s.tool_history ++
            [{ call := call_number, tool := "write_file", args := write_args,
               result := tool_result }] }
          let s := record_mission_tool_event s "write_file" tool_result (some target_index)
          let hint0 := progress_hint_message s
          let progress_hint := if hint0 = "" then defaultProgressHint else hint0
          let s := { s with messages := s.messages ++
            [("system", "TOOL_RESULT #" ++ toString call_number ++ " (write_file): " ++
              tool_result.dumps ++ "\n" ++ progress_hint)] }
          let vh := match lookup.value_hash with
            | some h => if h = "" then "n/a" else h
            | none => "n/a"
          let s := { s with memo_events := s.memo_events ++
            [{ key := key, ns := "cache", source_tool := "cache_reuse_hit",
               step := s.step, value_hash := vh, created_at := "" }] }
          some s

def maybe_complete_next_write_from_cache (s : RunState) (m : MemoStore) :
    Bool × RunState :=
  let mission := pyStrip (next_incomplete_mission s)
  if mission = "" then (false, s)
  else
    let mission_lower := pyLower mission
    if !pyContains mission_lower "write_file" && !pyContains mission_lower "write" then
      (false, s)
    else
      let target_path := extract_write_path_from_mission mission
      if target_path = "" then (false, s)
      else
        let reports := s.mission_reports
        let target_index :=
          if reports.isEmpty then 0
          else
            let ti0 := min s.completed_tasks.length (reports.length - 1)
            if pyStrip (reports.getD ti0 emptyMissionReport).mission ≠ mission then
              match reports.enum.find? (fun ir => pyStrip ir.2.mission = mission) with
              | some ir => ir.1
              | none => ti0
            else ti0
        match cacheReuseTryKeys m mission target_path target_index
            (write_cache_candidates target_path) s with
        | some s' => (true, s')
        | none =>
          let flags' :=
            { s.policy_flags with
                cache_reuse_misses := s.policy_flags.cache_reuse_misses + 1 }
          (false, { s with policy_flags := flags' })

/-! ## Plan node (`graph.py::_plan_next_action`)

The provider (`ChatProvider.generate` behind `_generate_with_hard_timeout`) is
modelled as a function of the 0-based call number returning one of: the parsed
JSON payload of the emitted text, a hard-timeout (`ProviderTimeoutError`), or
a raised provider exception with its message.  Wall-clock behaviour lives
entirely in which of these outcomes each call yields. -/

inductive GenResult where
  | ok (payload : Json)
  | timeout
  | err (msg : String)

/-- The repo's scripted test provider (`tests/test_langgraph_flow.py::
ScriptedProvider`): responses in order, repeating the last one forever. -/
def scriptedProvider (responses : List Json) : Nat → GenResult :=
  fun n =>
    match responses.getD (min n (responses.length - 1)) .null with
    | payload => .ok payload

/-- A provider whose every call exceeds the hard timeout (scenario S1's
always-sleeping planner under `plan_call_timeout_seconds=0.05`). -/
def timeoutProvider : Nat → GenResult := fun _ => .timeout

structure OrchestratorConfig where
  max_steps : Nat := 40
  max_invalid_plan_retries : Nat := 8
  max_provider_timeout_retries : Nat := 3
  plan_call_timeout_text : String := "45.00"
  max_content_validation_retries : Nat := 2
  policy : MemoizationPolicy := {}

/-- The `except Exception` handler of the plan node (invalid planner output or
raised provider error). -/
def planInvalidPath (cfg : OrchestratorConfig) (error_text : String)
    (s : RunState) : RunState :=
  let invalid_count := (rcGet s.retry_counts "invalid_json").toNat + 1
  let s := { s with retry_counts := rcSet s.retry_counts "invalid_json" invalid_count }
  if is_unrecoverable_plan_error error_text then
    let fail_message := "Planner failed with unrecoverable provider error: " ++
      error_text ++ ". Stopping."
    let s := { s with messages := s.messages ++ [("system", fail_message)] }
    let s := { s with pending_action := some (Json.mkObj
      [("action", .str "finish"), ("answer", .str fail_message)]) }
    checkpointSave s "plan_fail_unrecoverable"
  else if cfg.max_invalid_plan_retries ≤ invalid_count then
    let fail_message := "Planner failed to produce a valid JSON action after " ++
      toString invalid_count ++ " attempts (last error: " ++ error_text ++
      "). Stopping to avoid recursion-limit failure."
    let s := { s with messages := s.messages ++ [("system", fail_message)] }
    let s := { s with pending_action := some (Json.mkObj
      [("action", .str "finish"), ("answer", .str fail_message)]) }
    checkpointSave s "plan_fail_closed"
  else
    let s := { s with messages := s.messages ++
      [("system", "Invalid action (" ++ error_text ++
        "). Return exactly one valid JSON object. Do not output prose.")] }
    let s := { s with pending_action := none }
    checkpointSave s "plan_error"

/-- The `except ProviderTimeoutError` handler of the plan node. -/
def planTimeoutPath (cfg : OrchestratorConfig) (s : RunState) : RunState :=
  let error_text := "planner call exceeded hard timeout of " ++
    cfg.plan_call_timeout_text ++ "s"
  let timeout_count := (rcGet s.retry_counts "provider_timeout").toNat + 1
  let s := { s with retry_counts := rcSet s.retry_counts "provider_timeout" timeout_count }
  match deterministic_fallback_action s with
  | some fallback_action =>
    let s := { s with messages := s.messages ++
      [("system", "Provider timeout during planning. " ++
        "Orchestrator selected a deterministic fallback action.")] }
    let flags' := { s.policy_flags with planner_timeout_mode := true }
    let s := { s with policy_flags := flags', pending_action := some fallback_action }
    checkpointSave s "plan_timeout_fallback"
  | none =>
    if cfg.max_provider_timeout_retries ≤ timeout_count then
      let fail_message := "Planner failed after provider timeout retries: " ++
        error_text ++ ". Stopping."
      let s := { s with messages := s.messages ++ [("system", fail_message)] }
      let s := { s with pending_action := some (Json.mkObj
        [("action", .str "finish"), ("answer", .str fail_message)]) }
      checkpointSave s "plan_fail_provider_timeout"
    else
      let s := { s with messages := s.messages ++
        [("system", "Provider timeout while planning. " ++
          "Retry and return exactly one valid JSON object.")] }
      let s := { s with pending_action := none }
      checkpointSave s "plan_provider_timeout"

/-- The provider-consulting tail of the plan node (progress hint, `generate`
with its three outcomes, action validation, finish-rejection). -/
def planProviderCall (cfg : OrchestratorConfig) (gen : Nat → GenResult) (calls : Nat)
    (s : RunState) : RunState × Nat :=
  let s :=
    match progress_hint_message s with
    | "" => s
    | msg => { s with messages := s.messages ++ [("system", msg)] }
  match gen calls with
  | .ok payload =>
    let model_output := payload.dumps
    let s := { s with messages := s.messages ++ [("assistant", model_output)] }
    let flags' := { s.policy_flags with planner_timeout_mode := false }
    let s := { s with policy_flags := flags' }
    match validate_action toolNames payload with
    | .ok action =>
      if jsonGetStr action "action" "" = "finish" && !all_missions_completed s then
        let next_mission := next_incomplete_mission s
        let named := if next_mission = "" then "unknown" else next_mission
        let s := { s with messages := s.messages ++
          [("system", "Finish rejected: missions remain incomplete. Next task: " ++ named)] }
        let s := { s with pending_action := none }
        (checkpointSave s "plan_finish_rejected", calls + 1)
      else
        let s := { s with pending_action := some action }
        (checkpointSave s "plan", calls + 1)
    | .error err_text => (planInvalidPath cfg err_text s, calls + 1)
  | .timeout => (planTimeoutPath cfg s, calls + 1)
  | .err msg => (planInvalidPath cfg msg s, calls + 1)

def plan_next_action (cfg : OrchestratorConfig) (gen : Nat → GenResult) (calls : Nat)
    (s0 : RunState) (m : MemoStore) : RunState × Nat :=
  let s := ensureRetryDefaults s0
  let pendingFinish :=
    match s.pending_action with
    | some a => jsonGetStr a "action" "" == "finish"
    | none => false
  if pendingFinish then (s, calls)
  else
    let s := { s with step := s.step + 1 }
    let hitS := maybe_complete_next_write_from_cache s m
    if hitS.1 then
      let s := hitS.2
      let s :=
        if all_missions_completed s then
          { s with pending_action := some (Json.mkObj
            [("action", .str "finish"), ("answer", .str (build_auto_finish_answer s))]) }
        else s
      (checkpointSave s "plan_cache_reuse", calls)
    else
      let s := hitS.2
      if s.policy_flags.planner_timeout_mode then
        match deterministic_fallback_action s with
        | some fallback_action =>
          let s := { s with pending_action := some fallback_action }
          (checkpointSave s "plan_timeout_mode", calls)
        | none => planProviderCall cfg gen calls s
      else planProviderCall cfg gen calls s

/-! ## Finalize node, graph loop and `Run` (`graph.py`) -/

def finalize_node (s0 : RunState) : RunState :=
  let s := ensureRetryDefaults s0
  let s :=
    match s.pending_action with
    | some a =>
      if jsonGetStr a "action" "" = "finish" then
        { s with final_answer := pyStrip (jsonGetStr a "answer" ""),
                 pending_action := none }
      else s
    | none => s
  let s := if s.final_answer = "" then { s with final_answer := "Run completed." } else s
  checkpointSave s "finalize"

/-- The compiled graph: `plan → {plan, execute, finalize}`, `execute → policy`,
`policy → plan`, bounded by the recursion limit (`max_steps`); the store is
threaded through the nodes that touch it.  Exhausting the fuel models
langgraph's `GraphRecursionError` (no verified scenario comes near it). -/
def graphLoop (cfg : OrchestratorConfig) (gen : Nat → GenResult) :
    Nat → Nat → RunState → MemoStore → Except RunError (RunState × MemoStore)
  | 0, _, _, _ => .error .recursionLimit
  | fuel + 1, calls, s, m =>
    let planned := plan_next_action cfg gen calls s m
    let s := planned.1
    let calls := planned.2
    match s.pending_action with
    | none => graphLoop cfg gen fuel calls s m
    | some a =>
      if jsonGetStr a "action" "" = "finish" then .ok (finalize_node s, m)
      else
        match execute_action cfg.policy cfg.max_content_validation_retries s m with
        | .error e => .error e
        | .ok (s, m) => graphLoop cfg gen fuel calls (enforce_memo_policy s) m

structure DerivedSnapshot where
  run_id : String
  step : Nat
  tools_used_count : Nat
  tool_call_counts : List (String × Nat)
  memo_entry_count : Nat
  memo_keys : List String
  mission_count : Nat
  duplicate_tool_retries : Int
  memo_policy_retries : Int
  provider_timeout_retries : Int
  content_validation_retries : Int
  memo_retrieve_hits : Nat
  memo_retrieve_misses : Nat
  cache_reuse_hits : Nat
  cache_reuse_misses : Nat

/-- `graph.py::_build_derived_snapshot`. -/
def build_derived_snapshot (s : RunState) (memo_entries : List MemoListEntry) :
    DerivedSnapshot where
  run_id := s.run_id
  step := s.step
  tools_used_count := s.tool_history.length
  tool_call_counts := s.tool_call_counts
  memo_entry_count := memo_entries.length
  memo_keys := memo_entries.map (fun e => e.key)
  mission_count := s.mission_reports.length
  duplicate_tool_retries := rcGet s.retry_counts "duplicate_tool"
  memo_policy_retries := rcGet s.retry_counts "memo_policy"
  provider_timeout_retries := rcGet s.retry_counts "provider_timeout"
  content_validation_retries := rcGet s.retry_counts "content_validation"
  memo_retrieve_hits := s.policy_flags.memo_retrieve_hits
  memo_retrieve_misses := s.policy_flags.memo_retrieve_misses
  cache_reuse_hits := s.policy_flags.cache_reuse_hits
  cache_reuse_misses := s.policy_flags.cache_reuse_misses

/-- The dict returned by `LangGraphOrchestrator.run`. -/
structure RunReport where
  answer : String
  tools_used : List ToolRecord
  mission_report : List MissionReport
  run_id : String
  memo_events : List MemoEvent
  memo_store_entries : List MemoListEntry
  derived_snapshot : DerivedSnapshot
  checkpoints : List (Nat × String)
  state : RunState

/-- `LangGraphOrchestrator.run` over the modelled store.  `missions` is
`parse_missions(user_input).flat_missions`; for the single-line `"Task N: …"`
inputs of the verified scenarios `parse_missions_flat_single_line` below
computes it from the input.  The `structured_plan` dict and the
`Shared_plan.md` artifact are write-only and not modelled. -/
def langgraph_run (cfg : OrchestratorConfig) (gen : Nat → GenResult)
    (system_prompt user_input : String) (missions : List String) (run_id : String)
    (m0 : MemoStore) : Except RunError (RunReport × MemoStore) :=
  let s := ensureRetryDefaults (new_run_state system_prompt user_input run_id)
  let s := { s with missions := missions,
                    mission_reports := initialize_mission_reports missions,
                    active_mission_index := -1 }
  let s := checkpointSave s "init"
  match graphLoop cfg gen cfg.max_steps 0 s m0 with
  | .error e => .error e
  | .ok (fs, m) =>
    let final_state := ensureRetryDefaults fs
    let memo_entries := m.list_entries final_state.run_id "run"
    .ok ({ answer := final_state.final_answer,
           tools_used := final_state.tool_history,
           mission_report := final_state.mission_reports,
           run_id := final_state.run_id,
           memo_events := final_state.memo_events,
           memo_store_entries := memo_entries,
           derived_snapshot := build_derived_snapshot final_state memo_entries,
           checkpoints := final_state.checkpoints,
           state := final_state }, m)

/-! ## Mission parsing for single-line inputs (`execution/langgraph/mission_parser.py`)

`parse_missions` tries the numbered-task layer, then bullets, then the legacy
regex fallback.  For an input that is one line without leading whitespace (all
verified scenarios), the sub-task and continuation-line layers are vacuous
(both require indented lines), so `flat_missions` is determined by the
top-level patterns alone. -/

/-- `^[Tt]ask\s*(\d+)\s*:\s*(.+)` on a stripped line: id digits and stripped
description. -/
def matchTaskLine (cs : List Char) : Option (String × String) :=
  let afterTask :=
    match cs with
    | 'T' :: 'a' :: 's' :: 'k' :: rest => some rest
    | 't' :: 'a' :: 's' :: 'k' :: rest => some rest
    | _ => none
  match afterTask with
  | none => none
  | some rest =>
    let rest := rest.dropWhile pyIsSpace
    let ds := rest.takeWhile Char.isDigit
    if ds.isEmpty then none
    else
      match (rest.dropWhile Char.isDigit).dropWhile pyIsSpace with
      | ':' :: tail =>
        let body := tail.dropWhile pyIsSpace
        if body.isEmpty then none
        else some (⟨ds⟩, pyStrip ⟨body⟩)
      | _ => none

/-- `^(\d+)\s*[\)\.:\-]\s+(.+)` on a stripped line. -/
def matchNumberedLine (cs : List Char) : Option (String × String) :=
  let ds := cs.takeWhile Char.isDigit
  if ds.isEmpty then none
  else
    match (cs.dropWhile Char.isDigit).dropWhile pyIsSpace with
    | sep :: tail =>
      if sep = ')' || sep = '.' || sep = ':' || sep = '-' then
        let ws := tail.takeWhile pyIsSpace
        let body := tail.dropWhile pyIsSpace
        if ws.isEmpty || body.isEmpty then none
        else some (⟨ds⟩, pyStrip ⟨body⟩)
      else none
    | [] => none

/-- `^[-*+]\s+(.+)` on a stripped line. -/
def matchBulletLine (cs : List Char) : Option String :=
  match cs with
  | b :: tail =>
    if b = '-' || b = '*' || b = '+' then
      let ws := tail.takeWhile pyIsSpace
      let body := tail.dropWhile pyIsSpace
      if ws.isEmpty || body.isEmpty then none else some (pyStrip ⟨body⟩)
    else none
  | [] => none

/-- Legacy fallback patterns `^(task\s*\d+\s*:)` (case-insensitive) and
`^\d+[\)\.:\-\s]` — match-only tests. -/
def matchesFallbackTask (cs : List Char) : Bool :=
  let lower := cs.map pyLowerChar
  match lower with
  | 't' :: 'a' :: 's' :: 'k' :: rest =>
    let rest := rest.dropWhile pyIsSpace
    let ds := rest.takeWhile Char.isDigit
    if ds.isEmpty then false
    else
      match (rest.dropWhile Char.isDigit).dropWhile pyIsSpace with
      | ':' :: _ => true
      | _ => false
  | _ => false

def matchesFallbackNumbered (cs : List Char) : Bool :=
  let ds := cs.takeWhile Char.isDigit
  if ds.isEmpty then false
  else
    match cs.dropWhile Char.isDigit with
    | sep :: _ => sep = ')' || sep = '.' || sep = ':' || sep = '-' || pyIsSpace sep
    | [] => false

/-- `flat_missions` of `parse_missions` for a one-line input with no leading
whitespace. -/
def parse_missions_flat_single_line (line : String) : List String :=
  let stripped := pyStripL line.data
  match matchTaskLine stripped with
  | some idDesc => ["Task " ++ idDesc.1 ++ ": " ++ idDesc.2]
  | none =>
    match matchNumberedLine stripped with
    | some idDesc => ["Task " ++ idDesc.1 ++ ": " ++ idDesc.2]
    | none =>
      match matchBulletLine stripped with
      | some desc => ["Task 1: " ++ desc]
      | none =>
        let strippedFull := pyStrip line
        if strippedFull ≠ "" &&
            (matchesFallbackTask strippedFull.data ||
             matchesFallbackNumbered strippedFull.data) then
          [strippedFull]
        else ["Primary mission"]

/-! ## Projections over run outcomes -/

def runToolsOf : Except RunError (RunReport × MemoStore) → List String
  | .ok (r, _) => r.tools_used.map (fun t => t.tool)
  | .error _ => []

def runAnswerOf : Except RunError (RunReport × MemoStore) → String
  | .ok (r, _) => r.answer
  | .error _ => ""

def runMemoKeysOf : Except RunError (RunReport × MemoStore) → List String
  | .ok (r, _) => r.memo_store_entries.map (fun e => e.key)
  | .error _ => []

def runEventSourcesOf : Except RunError (RunReport × MemoStore) → List String
  | .ok (r, _) => r.memo_events.map (fun e => e.source_tool)
  | .error _ => []

def runStateOf : Except RunError (RunReport × MemoStore) → Option RunState
  | .ok (r, _) => some r.state
  | .error _ => none

/-! ## Scenario S2 (claim C2): Fibonacci write with auto-lookup and memoize -/

def s2Input : String :=
  "Task 1: Use write_file tool to write the fibonacci sequence until the 100th number to fib.txt"

def s2Missions : List String := parse_missions_flat_single_line s2Input

def s2Responses : List Json :=
  [Json.mkObj [("action", .str "tool"), ("tool_name", .str "write_file"),
    ("args", Json.mkObj [("path", .str "fib.txt"),
      ("content", .str (fibonacci_csv 100))])],
   Json.mkObj [("action", .str "tool"), ("tool_name", .str "memoize"),
    ("args", Json.mkObj [("key", .str "write_file:fib.txt"),
      ("value", Json.mkObj [("path", .str "fib.txt"), ("source", .str "planner")]),
      ("source_tool", .str "write_file")])],
   Json.mkObj [("action", .str "finish"), ("answer", .str "done")]]

def s2Run : Except RunError (RunReport × MemoStore) :=
  langgraph_run {} (scriptedProvider s2Responses) "" s2Input s2Missions "run-s2"
    MemoStore.empty

/-! ## The bundled memo store of `execution/langgraph/memo_store.py` (claim C1)

That `SQLiteMemoStore` class defines exactly the attributes listed below —
in particular neither `list_entries` nor `get_latest` — while
`LangGraphOrchestrator.run` (graph.py line 166) calls
`self.memo_store.list_entries(...)` before building its report dict, and the
plan node's cache-reuse shortcut (line 1376) calls
`self.memo_store.get_latest(...)`.  Python attribute lookup on an object of
that class raises `AttributeError` for any name outside the class (and
instance) attribute set. -/

def bundledSQLiteMemoStoreAttrs : List String :=
  ["db_path", "__init__", "_connect", "_initialize_schema", "put", "get"]

inductive PyError where
  | attributeError (className attr : String)
  deriving DecidableEq

/-- The tail of `LangGraphOrchestrator.run` (graph.py lines 165–179): after
the graph returns `final_state`, evaluate `self.memo_store.list_entries(...)`
— an attribute lookup followed by a call — then build the report dict.
`entries` stands for what the call would return were the attribute present. -/
def run_report_epilogue (storeAttrs : List String) (final_state : RunState)
    (entries : List MemoListEntry) : Except PyError RunReport :=
  if storeAttrs.contains "list_entries" then
    .ok { answer := final_state.final_answer,
          tools_used := final_state.tool_history,
          mission_report := final_state.mission_reports,
          run_id := final_state.run_id,
          memo_events := final_state.memo_events,
          memo_store_entries := entries,
          derived_snapshot := build_derived_snapshot final_state entries,
          checkpoints := final_state.checkpoints,
          state := final_state }
  else .error (.attributeError "SQLiteMemoStore" "list_entries")

/-! ## Scenario S1 (claim C9): planner blocks, hard timeout, fail closed -/

def s1Input : String := "Task 1: perform unknown operation now"

def s1Missions : List String := parse_missions_flat_single_line s1Input

def s1Cfg : OrchestratorConfig :=
  { max_provider_timeout_retries := 1, plan_call_timeout_text := "0.05" }

def s1Run : Except RunError (RunReport × MemoStore) :=
  langgraph_run s1Cfg timeoutProvider "" s1Input s1Missions "run-s1" MemoStore.empty

/-! ## Scenario S6 (claim C4): memoization-policy violation -/

def s6Input : String := "Task 1: write 200 numbers to data.txt"

def s6Missions : List String := parse_missions_flat_single_line s6Input

/-- `",".join(str(i) for i in range(200))`. -/
def s6Content : String :=
  ⟨joinWithL [','] ((List.range 200).map (fun n => (toString n).data))⟩

def s6Responses : List Json :=
  [Json.mkObj [("action", .str "tool"), ("tool_name", .str "write_file"),
    ("args", Json.mkObj [("path", .str "data.txt"), ("content", .str s6Content)])],
   Json.mkObj [("action", .str "tool"), ("tool_name", .str "sort_array"),
    ("args", Json.mkObj [("items", Json.mkArr [.int 2, .int 1]), ("order", .str "asc")])],
   Json.mkObj [("action", .str "tool"), ("tool_name", .str "sort_array"),
    ("args", Json.mkObj [("items", Json.mkArr [.int 9, .int 8]), ("order", .str "asc")])]]

def s6Run : Except RunError (RunReport × MemoStore) :=
  langgraph_run {} (scriptedProvider s6Responses) "" s6Input s6Missions "run-s6"
    MemoStore.empty

/-- The S6 planner followed by a compliant `memoize` and `finish` (only
repeated refusal to memoize trips the gate). -/
def s6okResponses : List Json :=
  [s6Responses.getD 0 .null, s6Responses.getD 1 .null,
   Json.mkObj [("action", .str "tool"), ("tool_name", .str "memoize"),
    ("args", Json.mkObj [("key", .str "write_file:data.txt"),
      ("value", Json.mkObj [("path", .str "data.txt")]),
      ("source_tool", .str "write_file")])],
   Json.mkObj [("action", .str "finish"), ("answer", .str "done")]]

def s6okRun : Except RunError (RunReport × MemoStore) :=
  langgraph_run {} (scriptedProvider s6okResponses) "" s6Input s6Missions "run-s6b"
    MemoStore.empty

/-- Whether a run outcome is the raised `MemoizationPolicyViolation`. -/
def runIsPolicyViolation : Except RunError (RunReport × MemoStore) → Bool
  | .error .memoizationPolicyViolation => true
  | _ => false

/-! ## Further projections for the S2 scenario (claims C2, C3, C5) -/

def runHistoryOf : Except RunError (RunReport × MemoStore) → List ToolRecord
  | .ok (r, _) => r.tools_used
  | .error _ => []

def runSeenOf : Except RunError (RunReport × MemoStore) → List String
  | .ok (r, _) => r.state.seen_tool_signatures
  | .error _ => []

/-- Number of store rows (across all runs and namespaces) under a key. -/
def runStoreKeyCount (r : Except RunError (RunReport × MemoStore)) (key : String) : Nat :=
  match r with
  | .ok (_, m) => (m.entries.filter (fun e => e.key = key)).length
  | .error _ => 0

def defaultToolRecord : ToolRecord := ⟨0, "", .obj .nil, .obj .nil⟩


/-- Whether an execute-node outcome is a normal return. -/
def execIsOk : Except RunError (RunState × MemoStore) → Bool
  | .ok _ => true
  | .error _ => false

/-- The history and signature set of a normal execute-node outcome. -/
def executeHistorySeen (r : Except RunError (RunState × MemoStore)) :
    Option (List ToolRecord × List String) :=
  match r with
  | .ok (s, _) => some (s.tool_history, s.seen_tool_signatures)
  | .error _ => none

/-- A family of concrete states for exercising the memo-policy gate:
memoization is pending (`k` retries already burned, as recorded in
`retry_counts["memo_policy"]`) and the planner proposes yet another
non-memoize tool call. -/
def c4GateState (k : Nat) : RunState :=
  let base := ensureRetryDefaults (new_run_state "" "Task 1: note" "run-c4w")
  { base with
      missions := ["Task 1: note"],
      mission_reports := initialize_mission_reports ["Task 1: note"],
      policy_flags := { base.policy_flags with
        memo_required := true, memo_required_key := "write_file:x.txt" },
      retry_counts := rcSet base.retry_counts "memo_policy" (Int.ofNat k),
      pending_action := some (Json.mkObj
        [("action", .str "tool"), ("tool_name", .str "sort_array"),
         ("args", Json.mkObj [("items", Json.mkArr [.int 1]), ("order", .str "asc")])]) }

def c3WitnessAction : Json :=
  Json.mkObj [("action", .str "tool"), ("tool_name", .str "repeat_message"),
    ("args", Json.mkObj [("message", .str "ok")])]

/-- A small concrete state in which the pending `repeat_message` call has
already been executed (its signature is recorded). -/
def c3WitnessState : RunState :=
  let base := ensureRetryDefaults (new_run_state "" "Task 1: repeat" "run-c3w")
  { base with
      missions := ["Task 1: repeat"],
      mission_reports := initialize_mission_reports ["Task 1: repeat"],
      completed_tasks := ["Task 1: repeat"],
      tool_history := [⟨1, "repeat_message",
        Json.mkObj [("message", .str "ok")],
        Json.mkObj [("echo", .str "ok")]⟩],
      seen_tool_signatures := [tool_signature "repeat_message"
        (Json.mkObj [("message", .str "ok")])],
      pending_action := some c3WitnessAction }

/-- The `retry_counts` entry of the returned state (`result["state"]`). -/
def runRetryOf (r : Except RunError (RunReport × MemoStore)) (k : String) : Int :=
  match r with
  | .ok (rep, _) => rcGet rep.state.retry_counts k
  | .error _ => -1

/-- A partial orchestration state: a Python dict that may lack keys
(`none` models an absent key), as accepted by `ensure_state_defaults` in
`state_schema.py`. -/
structure PartialSchemaState where
  run_id : Option String := none
  step : Option Nat := none
  messages : Option (List (String × String)) := none
  completed_tasks : Option (List String) := none
  tool_history : Option (List ToolRecord) := none
  memo_events : Option (List MemoEvent) := none
  retry_counts : Option (List (String × Int)) := none
  policy_flags : Option PolicyFlags := none
  seen_tool_signatures : Option (List String) := none
  tool_call_counts : Option (List (String × Nat)) := none
  pending_action : Option (Option Json) := none
  final_answer : Option String := none

/-- The fully-defaulted state returned by `ensure_state_defaults`: the
`RunState` TypedDict of `state_schema.py` (the schema-level state has no
mission bookkeeping fields). -/
structure SchemaState where
  run_id : String
  step : Nat
  messages : List (String × String)
  completed_tasks : List String
  tool_history : List ToolRecord
  memo_events : List MemoEvent
  retry_counts : List (String × Int)
  policy_flags : PolicyFlags
  seen_tool_signatures : List String
  tool_call_counts : List (String × Nat)
  pending_action : Option Json
  final_answer : String

/-- `ensure_state_defaults(state, system_prompt=...)` of
`execution/langgraph/state_schema.py`.  `fresh_run_id` stands for the
`str(uuid4())` drawn when the `run_id` key is absent.  `policy_flags` is
modelled as the defaults-carrying `PolicyFlags` record, so the three
`policy_flags.setdefault` calls are absorbed by `Option.getD {}`. -/
def ensure_state_defaults (fresh_run_id : String) (system_prompt : String)
    (state : PartialSchemaState) : SchemaState :=
  let messages0 := state.messages.getD []
  let messages :=
    if system_prompt ≠ "" && messages0.isEmpty then
      [("system", system_prompt)]
    else messages0
  let retry_counts :=
    rcSetdefault (rcSetdefault (rcSetdefault (state.retry_counts.getD [])
      "invalid_json") "memo_policy") "duplicate_tool"
  { run_id := state.run_id.getD fresh_run_id,
    step := state.step.getD 0,
    messages := messages,
    completed_tasks := state.completed_tasks.getD [],
    tool_history := state.tool_history.getD [],
    memo_events := state.memo_events.getD [],
    retry_counts := retry_counts,
    policy_flags := state.policy_flags.getD {},
    seen_tool_signatures := state.seen_tool_signatures.getD [],
    tool_call_counts := state.tool_call_counts.getD [],
    pending_action := state.pending_action.getD none,
    final_answer := state.final_answer.getD "" }

/-- Modelled from the spec: the five stand-alone unrecoverable markers
("invalid api key", "authentication", "permission", "insufficient_quota",
"rate limit exceeded"); the pair "model" + "not found" is handled separately. -/
def unrecoverableMarkersSpec : List String :=
  ["invalid api key", "authentication", "permission", "insufficient_quota",
   "rate limit exceeded"]

/-- Modelled from the spec: an error text is unrecoverable when its
lower-cased form contains one of the fixed markers, or contains both
"model" and "not found". -/
def is_unrecoverable_spec (t : String) : Bool :=
  let n := pyLower t
  unrecoverableMarkersSpec.any (fun mk => pyContains n mk) ||
    (pyContains n "model" && pyContains n "not found")

/-- Modelled from the spec: the Fibonacci chain check as a tail recursion
(`x = p1 + p2` link by link), used to bridge `fibMismatchIdx` to the indexed
recurrence. -/
def fibChainB : Int → Int → List Int → Bool
  | _, _, [] => true
  | p2, p1, x :: rest => x = p1 + p2 && fibChainB p1 x rest

/-- Modelled from the spec: exactly 100 integers, starting `0, 1`, with
`x[i] = x[i-1] + x[i-2]` at every later index. -/
def fibSpecOk (xs : List Int) : Prop :=
  xs.length = 100 ∧ xs.getD 0 0 = 0 ∧ xs.getD 1 0 = 1 ∧
    ∀ i, i < 98 → xs.getD (i + 2) 0 = xs.getD (i + 1) 0 + xs.getD i 0

/-- A mission that mentions sorting (with inline numbers) and also asks for a
fibonacci write: the sort branch of the fallback planner fires first. -/
def c7CexMission : String :=
  "Task 1: sort 9 7 8 and then write the fibonacci sequence to out.txt"

def c7CexState : RunState :=
  let base := ensureRetryDefaults (new_run_state "" c7CexMission "run-c7")
  { base with
      missions := [c7CexMission],
      mission_reports := initialize_mission_reports [c7CexMission] }

def c7WitnessMission : String := "Task 1: write the fibonacci sequence to fib.txt"

/-- A memo store holding one cache-namespace entry with the full fibonacci
content for `fib.txt`, as `_cache_write_file_inputs` would leave it. -/
def c5CacheStore : MemoStore :=
  (MemoStore.empty.put "shared" "write_file_input:fib.txt"
    (Json.mkObj [("path", .str "fib.txt"), ("content", .str (fibonacci_csv 100))])
    "cache" "write_file_cache" 0).2

/-- A fresh state whose single incomplete mission asks for the fibonacci
write, so the cache-reuse shortcut can hit. -/
def c5CacheState : RunState :=
  let base := ensureRetryDefaults (new_run_state "" c7WitnessMission "run-c5c")
  { base with
      missions := [c7WitnessMission],
      mission_reports := initialize_mission_reports [c7WitnessMission] }

/-! # Theorems

Helper lemmas first (projection/rewriting facts about the model), then one
theorem per claim (with its counterexample and witness theorems where the
status requires them). -/

theorem ensureRetryDefaults_pending (s : RunState) :
    (ensureRetryDefaults s).pending_action = s.pending_action := rfl

theorem ensureRetryDefaults_tool_history (s : RunState) :
    (ensureRetryDefaults s).tool_history = s.tool_history := rfl

theorem ensureRetryDefaults_seen (s : RunState) :
    (ensureRetryDefaults s).seen_tool_signatures = s.seen_tool_signatures := rfl

theorem ensureRetryDefaults_policy_flags (s : RunState) :
    (ensureRetryDefaults s).policy_flags = s.policy_flags := rfl

theorem ensureRetryDefaults_run_id (s : RunState) :
    (ensureRetryDefaults s).run_id = s.run_id := rfl

theorem ensureRetryDefaults_step (s : RunState) :
    (ensureRetryDefaults s).step = s.step := rfl

theorem checkpointSave_tool_history (s : RunState) (n : String) :
    (checkpointSave s n).tool_history = s.tool_history := rfl

theorem checkpointSave_seen (s : RunState) (n : String) :
    (checkpointSave s n).seen_tool_signatures = s.seen_tool_signatures := rfl

theorem checkpointSave_pending (s : RunState) (n : String) :
    (checkpointSave s n).pending_action = s.pending_action := rfl

theorem rcGet_setdefault (rc : List (String × Int)) (k j : String) :
    rcGet (rcSetdefault rc k) j = rcGet rc j := by
  unfold rcSetdefault
  split
  · rfl
  · next habs =>
    unfold rcGet
    rw [List.find?_append]
    cases hfind : rc.find? (fun kv => kv.1 = j) with
    | some kv => simp [hfind, Option.orElse]
    | none =>
      simp only [hfind, Option.none_orElse]
      by_cases hkj : k = j
      · subst hkj
        simp only [List.find?]
        unfold rcHas at habs
        simp [hfind] at habs ⊢
      · simp [List.find?, hkj]

theorem rcGet_ensured (s : RunState) (j : String) :
    rcGet (ensureRetryDefaults s).retry_counts j = rcGet s.retry_counts j := by
  show rcGet (rcSetdefault (rcSetdefault (rcSetdefault _ _) _) _) j = _
  rw [rcGet_setdefault, rcGet_setdefault, rcGet_setdefault]

/-- **C1.**  With the bundled `SQLiteMemoStore` of
`execution/langgraph/memo_store.py` (the default when no store is injected),
`LangGraphOrchestrator.run` never returns its report object: the class
defines only `put`/`get` (plus constructor internals), so the end-of-run
`memo_store.list_entries(...)` call raises `AttributeError` out of `run`
before the `{answer, tools_used, …, memo_store_entries, derived_snapshot}`
dict is built — for every final state the graph could produce — and the plan
node's cache-reuse shortcut's `memo_store.get_latest(...)` is equally
undefined on that class. -/
theorem c1_run_with_bundled_store_raises_attribute_error :
    (∀ (final_state : RunState) (entries : List MemoListEntry),
      run_report_epilogue bundledSQLiteMemoStoreAttrs final_state entries =
        .error (.attributeError "SQLiteMemoStore" "list_entries")) ∧
    bundledSQLiteMemoStoreAttrs.contains "list_entries" = false ∧
    bundledSQLiteMemoStoreAttrs.contains "get_latest" = false ∧
    bundledSQLiteMemoStoreAttrs.contains "put" = true ∧
    bundledSQLiteMemoStoreAttrs.contains "get" = true := by
  exact ⟨fun _ _ => rfl, rfl, rfl, rfl, rfl⟩

/-- **C9.**  Scenario S1: with `max_provider_timeout_retries = 1`, a planner
whose every call exceeds the hard timeout, and the single mission
`"Task 1: perform unknown operation now"` (for which the deterministic
fallback yields nothing), the run fails closed: the final answer contains
`"provider timeout retries"`, `retry_counts.provider_timeout = 1`, and
`tool_history` is empty. -/
theorem c9_s1_timeout_fails_closed :
    s1Missions = [s1Input] ∧
    pyContains (runAnswerOf s1Run) "provider timeout retries" = true ∧
    runRetryOf s1Run "provider_timeout" = 1 ∧
    (runHistoryOf s1Run).isEmpty = true := by
  refine ⟨by decide, by decide, by decide, by decide⟩

/-- **C2 (counterexample).**  In scenario S2 the planner writes to path
`"fib.txt"`, whose basename equals the path, so the auto-lookup has a single
candidate key and performs one `retrieve_memo`, not two: the recorded tool
sequence is `retrieve_memo, write_file, memoize`, refuting the claimed
`retrieve_memo, retrieve_memo, write_file, memoize`. -/
theorem c2_counterexample_single_retrieve :
    runToolsOf s2Run = ["retrieve_memo", "write_file", "memoize"] ∧
    runToolsOf s2Run ≠
      ["retrieve_memo", "retrieve_memo", "write_file", "memoize"] := by
  refine ⟨by decide, by decide⟩

/-- **C2 (amended).**  Scenario S2 (single mission `"Task 1: Use write_file
tool to write the fibonacci sequence until the 100th number to fib.txt"`,
fresh stores, planner scripted write_file / memoize / finish): the recorded
tools are, in order, `retrieve_memo, write_file, memoize` (a single
auto-lookup, because for path `"fib.txt"` the basename equals the path); the
memo store ends with exactly one entry under key `write_file:fib.txt` (and it
is the only run-namespace entry); and the final answer is `"done"`. -/
theorem c2_amended_s2_happy_path :
    s2Missions = [s2Input] ∧
    runToolsOf s2Run = ["retrieve_memo", "write_file", "memoize"] ∧
    runMemoKeysOf s2Run = ["write_file:fib.txt"] ∧
    runStoreKeyCount s2Run "write_file:fib.txt" = 1 ∧
    runAnswerOf s2Run = "done" := by
  refine ⟨by decide, by decide, by decide, by decide, by decide⟩

/-- **C3 (counterexample).**  In scenario S2 the auto-lookup executes
`retrieve_memo` (it is the first `tool_history` entry) without recording its
signature: the signature of that executed call is absent from
`seen_tool_signatures` (which holds only the write_file and memoize
signatures), refuting "a signature is in `seen_tool_signatures` iff the
exact (tool, args) pair has been executed". -/
theorem c3_counterexample_lookup_not_in_seen :
    ((runHistoryOf s2Run).getD 0 defaultToolRecord).tool = "retrieve_memo" ∧
    (runSeenOf s2Run).contains
      (tool_signature "retrieve_memo"
        ((runHistoryOf s2Run).getD 0 defaultToolRecord).args) = false ∧
    (runHistoryOf s2Run).length = 3 ∧ (runSeenOf s2Run).length = 2 := by
  refine ⟨by decide, by decide, by decide, by decide⟩

/-- **C5 (counterexample).**  Scenario S2 performs exactly one successful
`write_file` (path `"fib.txt"`), yet `memo_events` carries exactly one
`write_file_cache` entry, not the claimed two: for a path equal to its
basename there is a single cache candidate key. -/
theorem c5_counterexample_single_cache_event :
    ((runEventSourcesOf s2Run).filter (fun x => x = "write_file_cache")).length = 1 ∧
    ((runHistoryOf s2Run).filter
      (fun t => t.tool = "write_file" && !t.result.hasKey "error")).length = 1 ∧
    ((runEventSourcesOf s2Run).filter (fun x => x = "write_file_cache")).length ≠ 2 := by
  refine ⟨by decide, by decide, by decide⟩

/-- **C4.**  With the default memoization policy (`max_policy_retries = 2`),
scenario S6 — a `write_file` of 200 comma-separated integers (which sets
`memo_required`) followed by a planner that keeps proposing non-memoize tool
calls (two scripted `sort_array` calls; the scripted provider repeats its
last response) — makes the run raise `MemoizationPolicyViolation`; the same
scenario with a compliant `memoize` then `finish` completes normally.  The
gate is exact: with memoization required and a non-memoize tool proposed,
the execute node returns normally precisely when the incremented
`memo_policy` retry count (recorded count `k` plus one) stays within
`max_policy_retries`, i.e. for recorded counts 0 and 1, and raises for every
recorded count of 2 or more (checked here for all counts below 20). -/
theorem c4_s6_memo_policy_violation :
    runIsPolicyViolation s6Run = true ∧
    runAnswerOf s6okRun = "done" ∧
    (∀ k : Fin 20,
      execIsOk (execute_action {} 2 (c4GateState k.val) MemoStore.empty) =
        decide (k.val + 1 ≤ 2)) :=
  ⟨by decide, by decide, by decide⟩

theorem rcHas_setdefault_self (rc : List (String × Int)) (k : String) :
    rcHas (rcSetdefault rc k) k = true := by
  unfold rcSetdefault
  split
  · next hh => exact hh
  · unfold rcHas
    rw [List.find?_append]
    cases hfind : rc.find? (fun kv => kv.1 = k) with
    | some kv => simp [hfind, Option.orElse]
    | none => simp [hfind, List.find?]

theorem rcHas_setdefault_other (rc : List (String × Int)) (k j : String)
    (h : ¬ j = k) : rcHas (rcSetdefault rc k) j = rcHas rc j := by
  unfold rcSetdefault
  split
  · rfl
  · unfold rcHas
    rw [List.find?_append]
    cases hfind : rc.find? (fun kv => kv.1 = j) with
    | some kv => simp [hfind, Option.orElse]
    | none =>
      have hkj : ¬ k = j := fun hh => h hh.symm
      simp [hfind, List.find?, hkj]

/-- **C10 counterexample.**  On an empty input state, `ensure_state_defaults`
installs only the retry keys `invalid_json`, `memo_policy` and
`duplicate_tool`; contrary to the spec's key list, neither
`provider_timeout` nor `content_validation` is installed. -/
theorem c10_counterexample_no_provider_timeout_key :
    rcHas (ensure_state_defaults "u" "" {}).retry_counts "provider_timeout" = false ∧
    rcHas (ensure_state_defaults "u" "" {}).retry_counts "content_validation" = false ∧
    (ensure_state_defaults "u" "" {}).retry_counts =
      [("invalid_json", 0), ("memo_policy", 0), ("duplicate_tool", 0)] :=
  ⟨by decide, by decide, by decide⟩

/-- **C10 (amended).**  `ensure_state_defaults` fills `run_id` with the fresh
id, `step` with 0 and `final_answer` with "" when those keys are absent, and
installs exactly the retry keys `invalid_json`, `memo_policy` and
`duplicate_tool` (with value 0 when absent; existing counts are preserved for
every key).  It does not install `provider_timeout` or `content_validation`:
their presence is exactly as in the input state. -/
theorem c10_amended_ensure_state_defaults (fresh prompt : String)
    (s : PartialSchemaState) :
    (ensure_state_defaults fresh prompt s).run_id = s.run_id.getD fresh ∧
    (ensure_state_defaults fresh prompt s).step = s.step.getD 0 ∧
    (ensure_state_defaults fresh prompt s).final_answer = s.final_answer.getD "" ∧
    rcHas (ensure_state_defaults fresh prompt s).retry_counts "invalid_json" = true ∧
    rcHas (ensure_state_defaults fresh prompt s).retry_counts "memo_policy" = true ∧
    rcHas (ensure_state_defaults fresh prompt s).retry_counts "duplicate_tool" = true ∧
    (∀ k : String, rcGet (ensure_state_defaults fresh prompt s).retry_counts k =
      rcGet (s.retry_counts.getD []) k) ∧
    rcHas (ensure_state_defaults fresh prompt s).retry_counts "provider_timeout" =
      rcHas (s.retry_counts.getD []) "provider_timeout" ∧
    rcHas (ensure_state_defaults fresh prompt s).retry_counts "content_validation" =
      rcHas (s.retry_counts.getD []) "content_validation" := by
  refine ⟨rfl, rfl, rfl, ?_, ?_, ?_, ?_, ?_, ?_⟩
  · show rcHas (rcSetdefault (rcSetdefault (rcSetdefault _ _) _) _) _ = true
    rw [rcHas_setdefault_other _ _ _ (by decide),
      rcHas_setdefault_other _ _ _ (by decide), rcHas_setdefault_self]
  · show rcHas (rcSetdefault (rcSetdefault (rcSetdefault _ _) _) _) _ = true
    rw [rcHas_setdefault_other _ _ _ (by decide), rcHas_setdefault_self]
  · show rcHas (rcSetdefault (rcSetdefault (rcSetdefault _ _) _) _) _ = true
    rw [rcHas_setdefault_self]
  · intro k
    show rcGet (rcSetdefault (rcSetdefault (rcSetdefault _ _) _) _) k = _
    rw [rcGet_setdefault, rcGet_setdefault, rcGet_setdefault]
  · show rcHas (rcSetdefault (rcSetdefault (rcSetdefault _ _) _) _) _ = _
    rw [rcHas_setdefault_other _ _ _ (by decide),
      rcHas_setdefault_other _ _ _ (by decide),
      rcHas_setdefault_other _ _ _ (by decide)]
  · show rcHas (rcSetdefault (rcSetdefault (rcSetdefault _ _) _) _) _ = _
    rw [rcHas_setdefault_other _ _ _ (by decide),
      rcHas_setdefault_other _ _ _ (by decide),
      rcHas_setdefault_other _ _ _ (by decide)]

/-- **C8.**  Unrecoverable provider errors are exactly those whose lower-cased
text contains one of the fixed stand-alone markers or both "model" and
"not found" (so "model mismatch" and "file not found" are recoverable while
"Model 'x' NOT Found" is not), and an unrecoverable error short-circuits the
invalid-JSON retry budget: the plan error path immediately installs a finish
action naming the condition, for every retry count. -/
theorem c8_unrecoverable_plan_errors :
    (∀ t, is_unrecoverable_plan_error t = is_unrecoverable_spec t) ∧
    is_unrecoverable_plan_error "model mismatch" = false ∧
    is_unrecoverable_plan_error "file not found" = false ∧
    is_unrecoverable_plan_error "Model 'x' NOT Found" = true ∧
    is_unrecoverable_plan_error "Rate Limit Exceeded: try later" = true ∧
    (∀ (cfg : OrchestratorConfig) (s : RunState) (err : String),
      is_unrecoverable_plan_error err = true →
      (planInvalidPath cfg err s).pending_action = some (Json.mkObj
        [("action", .str "finish"),
         ("answer", .str ("Planner failed with unrecoverable provider error: " ++
           err ++ ". Stopping."))])) := by
  refine ⟨?_, by decide, by decide, by decide, by decide, ?_⟩
  · intro t
    simp only [is_unrecoverable_plan_error, is_unrecoverable_spec,
      unrecoverableMarkersSpec, List.any_cons, List.any_nil]
    cases pyContains (pyLower t) "model" <;>
      cases pyContains (pyLower t) "not found" <;>
      cases pyContains (pyLower t) "invalid api key" <;>
      cases pyContains (pyLower t) "authentication" <;>
      cases pyContains (pyLower t) "permission" <;>
      cases pyContains (pyLower t) "insufficient_quota" <;>
      cases pyContains (pyLower t) "rate limit exceeded" <;> rfl
  · intro cfg s err h
    simp only [planInvalidPath, h, if_true]
    rfl

/-- Witness for the hypothesised conjunct of the C8 theorem: the concrete
error text "invalid api key" is unrecoverable and short-circuits to a finish
action. -/
theorem c8_unrecoverable_plan_errors_witness :
    is_unrecoverable_plan_error "invalid api key" = true ∧
    (planInvalidPath {} "invalid api key" (new_run_state "" "x" "r")).pending_action =
      some (Json.mkObj
        [("action", .str "finish"),
         ("answer", .str ("Planner failed with unrecoverable provider error: " ++
           "invalid api key" ++ ". Stopping."))]) :=
  ⟨by decide, c8_unrecoverable_plan_errors.2.2.2.2.2 {} (new_run_state "" "x" "r")
    "invalid api key" (by decide)⟩

theorem MemoStore.put_fst (m : MemoStore) (rid key : String) (value : Json)
    (ns source_tool : String) (step : Nat) (created_at : String) :
    (MemoStore.put m rid key value ns source_tool step created_at).1 =
      ⟨true, rid, key, ns, hash_json value⟩ := by
  unfold MemoStore.put
  split <;> rfl

theorem cacheWriteStep_fst (path content : String) (sm : RunState × MemoStore)
    (k : String) :
    (cacheWriteStep path content sm k).1 =
      { sm.1 with memo_events := sm.1.memo_events ++
        [{ key := k, ns := "cache", source_tool := "write_file_cache",
           step := sm.1.step,
           value_hash := hash_json (Json.mkObj
             [("path", .str path), ("content", .str content)]),
           created_at := "" }] } := by
  simp only [cacheWriteStep, MemoStore.put_fst]

theorem cacheWrite_fold_events (path content : String) (keys : List String) :
    ∀ sm : RunState × MemoStore,
    ((keys.foldl (cacheWriteStep path content) sm).1).memo_events =
      sm.1.memo_events ++ keys.map (fun k =>
        { key := k, ns := "cache", source_tool := "write_file_cache",
          step := sm.1.step,
          value_hash := hash_json (Json.mkObj
            [("path", .str path), ("content", .str content)]),
          created_at := "" }) := by
  induction keys with
  | nil => intro sm; simp
  | cons k rest ih =>
    intro sm
    simp only [List.foldl_cons, List.map_cons]
    rw [ih, cacheWriteStep_fst]
    simp [List.append_assoc]

theorem record_mission_tool_event_events (s : RunState) (tn : String) (res : Json)
    (mi : Option Nat) :
    (record_mission_tool_event s tn res mi).memo_events = s.memo_events := by
  simp only [record_mission_tool_event]
  split <;> rfl

set_option smartUnfolding true in
theorem cacheReuseTryKeys_events (m : MemoStore) (mission tp : String) (ti : Nat) :
    ∀ (keys : List String) (s t : RunState),
    cacheReuseTryKeys m mission tp ti keys s = some t →
    t.memo_events.map (fun e => e.source_tool) =
      s.memo_events.map (fun e => e.source_tool) ++ ["cache_reuse_hit"] := by
  intro keys
  induction keys with
  | nil => intro s t h; simp [cacheReuseTryKeys] at h
  | cons k rest ih =>
    intro s t h
    simp only [cacheReuseTryKeys] at h
    split at h
    · exact ih s t h
    · split at h
      · exact ih s t h
      · split at h
        · exact ih s t h
        · rw [Option.some.injEq] at h
          subst h
          simp [record_mission_tool_event_events]

/-- **C5 (amended).**  Each `retrieve_memo` appends exactly one memo event
whose source is `retrieve_memo_hit` or `retrieve_memo_miss` according to the
result's `found` flag; each successful `write_file` caching pass appends one
`write_file_cache` event per candidate key — two for a path with a distinct
basename, but only ONE when the basename equals the path (contrary to the
claimed unconditional two); each successful `memoize` (result carrying
`value_hash`) appends exactly one event with the caller's `source_tool`
(default "memoize") and a non-memoize result appends none; and each
cache-reuse hit appends exactly one `cache_reuse_hit` event. -/
theorem c5_amended_memo_event_sources :
    (∀ (s : RunState) (res : Json),
      (record_retrieve_memo_trace s res).memo_events =
        s.memo_events ++ [MemoEvent.mk (jsonGetStr res "key" "")
          (jsonGetStr res "namespace" "run")
          (if jsonFoundFlag res then "retrieve_memo_hit" else "retrieve_memo_miss")
          s.step
          (if jsonGetStr res "value_hash" "" = "" then "n/a"
            else jsonGetStr res "value_hash" "")
          ""]) ∧
    (∀ (s : RunState) (m : MemoStore) (args : Json),
      pyStrip (jsonGetStr args "path" "") ≠ "" →
      jsonGetStr args "content" "" ≠ "" →
      ((cache_write_file_inputs s m args).1).memo_events =
        s.memo_events ++
          (write_cache_candidates (pyStrip (jsonGetStr args "path" ""))).map
            (fun k => MemoEvent.mk k "cache" "write_file_cache" s.step
              (hash_json (Json.mkObj
                [("path", .str (pyStrip (jsonGetStr args "path" ""))),
                 ("content", .str (jsonGetStr args "content" ""))])) "")) ∧
    write_cache_candidates "fib.txt" = ["write_file_input:fib.txt"] ∧
    write_cache_candidates "out/fib.txt" =
      ["write_file_input:out/fib.txt", "write_file_input:fib.txt"] ∧
    (∀ (tn : String) (args res : Json) (s : RunState),
      (record_memoize_event tn args res s).memo_events =
        (if tn = "memoize" && res.hasKey "value_hash" then
          s.memo_events ++ [MemoEvent.mk (jsonGetStr res "key" "")
            (jsonGetStr res "namespace" "run")
            (jsonGetStr args "source_tool" "memoize") s.step
            (jsonGetStr res "value_hash" "") ""]
         else s.memo_events)) ∧
    (∀ (m : MemoStore) (mission tp : String) (ti : Nat) (keys : List String)
        (s t : RunState),
      cacheReuseTryKeys m mission tp ti keys s = some t →
      t.memo_events.map (fun e => e.source_tool) =
        s.memo_events.map (fun e => e.source_tool) ++ ["cache_reuse_hit"]) := by
  refine ⟨fun s res => rfl, ?_, by decide, by decide, ?_, cacheReuseTryKeys_events⟩
  · intro s m args hp hc
    unfold cache_write_file_inputs
    rw [if_neg (by simp [hp, hc])]
    rw [cacheWrite_fold_events]
  · intro tn args res s
    cases h : (tn = "memoize" && res.hasKey "value_hash") <;>
      simp [record_memoize_event, h]

/-- Witness for the hypothesised conjuncts of the C5 amended theorem: a
concrete successful `write_file` to `"fib.txt"` (basename = path) produces
exactly one `write_file_cache` event, and a concrete cache-reuse hit on the
stored fibonacci content appends exactly one `cache_reuse_hit` event. -/
theorem c5_amended_memo_event_sources_witness :
    pyStrip (jsonGetStr (Json.mkObj [("path", .str "fib.txt"),
      ("content", .str "0, 1")]) "path" "") ≠ "" ∧
    jsonGetStr (Json.mkObj [("path", .str "fib.txt"),
      ("content", .str "0, 1")]) "content" "" ≠ "" ∧
    ((cache_write_file_inputs (new_run_state "" "x" "r") MemoStore.empty
        (Json.mkObj [("path", .str "fib.txt"),
          ("content", .str "0, 1")])).1).memo_events =
      [{ key := "write_file_input:fib.txt", ns := "cache",
         source_tool := "write_file_cache", step := 0,
         value_hash := hash_json (Json.mkObj
           [("path", .str "fib.txt"), ("content", .str "0, 1")]),
         created_at := "" }] ∧
    (cacheReuseTryKeys c5CacheStore c7WitnessMission "fib.txt" 0
      ["write_file_input:fib.txt"] c5CacheState).isSome = true ∧
    ((cacheReuseTryKeys c5CacheStore c7WitnessMission "fib.txt" 0
        ["write_file_input:fib.txt"] c5CacheState).map
      (fun t => t.memo_events.map (fun e => e.source_tool))) =
      some (c5CacheState.memo_events.map (fun e => e.source_tool) ++
        ["cache_reuse_hit"]) :=
  ⟨by decide, by decide, by
    have h := c5_amended_memo_event_sources.2.1 (new_run_state "" "x" "r")
      MemoStore.empty
      (Json.mkObj [("path", .str "fib.txt"), ("content", .str "0, 1")])
      (by decide) (by decide)
    exact h.trans rfl,
   by decide, by
    cases hex : cacheReuseTryKeys c5CacheStore c7WitnessMission "fib.txt" 0
        ["write_file_input:fib.txt"] c5CacheState with
    | none =>
      have hs : (cacheReuseTryKeys c5CacheStore c7WitnessMission "fib.txt" 0
          ["write_file_input:fib.txt"] c5CacheState).isSome = true := by decide
      rw [hex] at hs
      simp at hs
    | some t =>
      have h := c5_amended_memo_event_sources.2.2.2.2.2 c5CacheStore
        c7WitnessMission "fib.txt" 0 ["write_file_input:fib.txt"] c5CacheState t hex
      simp [hex, h]⟩

theorem record_retrieve_memo_trace_seen (s : RunState) (res : Json) :
    (record_retrieve_memo_trace s res).seen_tool_signatures =
      s.seen_tool_signatures := rfl

theorem record_mission_tool_event_seen (s : RunState) (tn : String) (res : Json)
    (mi : Option Nat) :
    (record_mission_tool_event s tn res mi).seen_tool_signatures =
      s.seen_tool_signatures := by
  simp only [record_mission_tool_event]
  split <;> rfl

set_option smartUnfolding true in
theorem auto_lookup_before_write_seen (m : MemoStore) (hint : String) :
    ∀ (keys : List String) (s : RunState),
    ((auto_lookup_before_write m hint keys s).2).seen_tool_signatures =
      s.seen_tool_signatures := by
  intro keys
  induction keys with
  | nil => intro s; rfl
  | cons k rest ih =>
    intro s
    simp only [auto_lookup_before_write]
    split
    · simp only [record_mission_tool_event_seen, record_retrieve_memo_trace_seen]
    · rw [ih]
      simp only [record_mission_tool_event_seen, record_retrieve_memo_trace_seen]

theorem execute_policy_gate_ok (cfg : MemoizationPolicy) (tn : String)
    (s : RunState) (m : MemoStore) (t : RunState) (m2 : MemoStore)
    (h : execute_policy_gate cfg tn s m = .ok (t, m2)) :
    t.tool_history = s.tool_history ∧
      t.seen_tool_signatures = s.seen_tool_signatures := by
  simp only [execute_policy_gate] at h
  split at h
  · simp at h
  · rw [Except.ok.injEq, Prod.mk.injEq] at h
    obtain ⟨h1, h2⟩ := h
    subst h1
    exact ⟨rfl, rfl⟩

theorem execute_unknown_tool_ok (tn : String)
    (s : RunState) (m : MemoStore) (t : RunState) (m2 : MemoStore)
    (h : execute_unknown_tool tn s m = .ok (t, m2)) :
    t.tool_history = s.tool_history ∧
      t.seen_tool_signatures = s.seen_tool_signatures := by
  simp only [execute_unknown_tool] at h
  rw [Except.ok.injEq, Prod.mk.injEq] at h
  obtain ⟨h1, h2⟩ := h
  subst h1
  exact ⟨rfl, rfl⟩

theorem execute_duplicate_tool_ok (tn : String)
    (s : RunState) (m : MemoStore) (t : RunState) (m2 : MemoStore)
    (h : execute_duplicate_tool tn s m = .ok (t, m2)) :
    t.tool_history = s.tool_history ∧
      t.seen_tool_signatures = s.seen_tool_signatures := by
  simp only [execute_duplicate_tool] at h
  split at h
  · rw [Except.ok.injEq, Prod.mk.injEq] at h
    obtain ⟨h1, h2⟩ := h
    subst h1
    exact ⟨rfl, rfl⟩
  · rw [Except.ok.injEq, Prod.mk.injEq] at h
    obtain ⟨h1, h2⟩ := h
    subst h1
    exact ⟨rfl, rfl⟩

set_option smartUnfolding true in
theorem cacheReuseTryKeys_seen (m : MemoStore) (mission tp : String) (ti : Nat) :
    ∀ (keys : List String) (s t : RunState),
    cacheReuseTryKeys m mission tp ti keys s = some t →
    t.seen_tool_signatures = s.seen_tool_signatures := by
  intro keys
  induction keys with
  | nil => intro s t h; simp [cacheReuseTryKeys] at h
  | cons k rest ih =>
    intro s t h
    simp only [cacheReuseTryKeys] at h
    split at h
    · exact ih s t h
    · split at h
      · exact ih s t h
      · split at h
        · exact ih s t h
        · rw [Option.some.injEq] at h
          subst h
          simp only [record_mission_tool_event_seen]

theorem maybe_complete_next_write_from_cache_seen (s : RunState) (m : MemoStore) :
    ((maybe_complete_next_write_from_cache s m).2).seen_tool_signatures =
      s.seen_tool_signatures := by
  simp only [maybe_complete_next_write_from_cache]
  split
  · rfl
  · split
    · rfl
    · split
      · rfl
      · split
        · next t heq => exact cacheReuseTryKeys_seen _ _ _ _ _ _ _ heq
        · rfl

theorem has_attempted_ensured (s : RunState) (ks : List String) :
    has_attempted_memo_lookup (ensureRetryDefaults s) ks =
      has_attempted_memo_lookup s ks := rfl

theorem execute_dispatch_ok (cfg : MemoizationPolicy) (mcv : Nat) (tn : String)
    (ta : Json) (s : RunState) (m : MemoStore) (t : RunState) (m2 : MemoStore)
    (hdup : s.seen_tool_signatures.contains (tool_signature tn ta) = true)
    (h : (if s.policy_flags.memo_required && tn ≠ "memoize" then
        execute_policy_gate cfg tn s m
      else if !toolNames.contains tn then
        execute_unknown_tool tn s m
      else if s.seen_tool_signatures.contains (tool_signature tn ta) then
        execute_duplicate_tool tn s m
      else
        execute_run_tool mcv tn ta s m) = .ok (t, m2)) :
    t.tool_history = s.tool_history ∧
      t.seen_tool_signatures = s.seen_tool_signatures := by
  split at h
  · exact execute_policy_gate_ok _ _ _ _ _ _ h
  · split at h
    · exact execute_unknown_tool_ok _ _ _ _ _ h
    · exact execute_duplicate_tool_ok _ _ _ _ _ h

/-- **C3 (amended).**  The auto-lookup path and the cache-reuse path execute
tools without recording signatures: neither changes
`seen_tool_signatures`.  The planner-proposed execute path is
duplicate-guarded: when the proposed call's signature is already in
`seen_tool_signatures` (and the auto-lookup does not fire), a normal return
of the execute node leaves both `tool_history` and `seen_tool_signatures`
exactly unchanged — repeating the same tool+args never produces a second
history entry. -/
theorem c3_amended_seen_signature_discipline :
    (∀ (m : MemoStore) (hint : String) (keys : List String) (s : RunState),
      ((auto_lookup_before_write m hint keys s).2).seen_tool_signatures =
        s.seen_tool_signatures) ∧
    (∀ (s : RunState) (m : MemoStore),
      ((maybe_complete_next_write_from_cache s m).2).seen_tool_signatures =
        s.seen_tool_signatures) ∧
    (∀ (cfg : MemoizationPolicy) (mcv : Nat) (s : RunState) (m : MemoStore)
        (action : Json),
      s.pending_action = some action →
      jsonGetStr action "action" "" ≠ "finish" →
      ((memo_lookup_candidates_for_action (jsonGetStr action "tool_name" "")
          (normalize_tool_args (jsonGetStr action "tool_name" "")
            ((action.get? "args").getD (Json.mkObj [])))).isEmpty = true ∨
        has_attempted_memo_lookup s
          (memo_lookup_candidates_for_action (jsonGetStr action "tool_name" "")
            (normalize_tool_args (jsonGetStr action "tool_name" "")
              ((action.get? "args").getD (Json.mkObj [])))) = true) →
      s.seen_tool_signatures.contains
        (tool_signature (jsonGetStr action "tool_name" "")
          (inject_memo_defaults s.run_id s.step (jsonGetStr action "tool_name" "")
            (normalize_tool_args (jsonGetStr action "tool_name" "")
              ((action.get? "args").getD (Json.mkObj []))))) = true →
      ∀ (t : RunState) (m2 : MemoStore),
        execute_action cfg mcv s m = .ok (t, m2) →
        t.tool_history = s.tool_history ∧
        t.seen_tool_signatures = s.seen_tool_signatures) := by
  refine ⟨auto_lookup_before_write_seen, maybe_complete_next_write_from_cache_seen, ?_⟩
  intro cfg mcv s m action hpend hfin hlk hsig t m2 hex
  unfold execute_action at hex
  simp only [ensureRetryDefaults_pending, hpend] at hex
  rw [if_neg hfin] at hex
  split at hex
  · next s1 heq =>
    rcases hlk with h | h
    · rw [h] at heq
      simp at heq
    · rw [has_attempted_ensured, h] at heq
      simp at heq
  · next s1 heq =>
    rcases hlk with h | h
    · rw [h] at heq
      simp at heq
      subst heq
      exact execute_dispatch_ok cfg mcv _ _ (ensureRetryDefaults s) m t m2 hsig hex
    · rw [has_attempted_ensured, h] at heq
      simp at heq
      subst heq
      exact execute_dispatch_ok cfg mcv _ _ (ensureRetryDefaults s) m t m2 hsig hex

/-- Witness for the hypothesised conjunct of the C3 amended theorem: a
concrete state whose pending `repeat_message` call was already executed (its
signature is recorded); the execute node returns normally with
`tool_history` and `seen_tool_signatures` unchanged. -/
theorem c3_amended_witness :
    c3WitnessState.pending_action = some c3WitnessAction ∧
    jsonGetStr c3WitnessAction "action" "" ≠ "finish" ∧
    (memo_lookup_candidates_for_action (jsonGetStr c3WitnessAction "tool_name" "")
      (normalize_tool_args (jsonGetStr c3WitnessAction "tool_name" "")
        ((c3WitnessAction.get? "args").getD (Json.mkObj [])))).isEmpty = true ∧
    c3WitnessState.seen_tool_signatures.contains
      (tool_signature (jsonGetStr c3WitnessAction "tool_name" "")
        (inject_memo_defaults c3WitnessState.run_id c3WitnessState.step
          (jsonGetStr c3WitnessAction "tool_name" "")
          (normalize_tool_args (jsonGetStr c3WitnessAction "tool_name" "")
            ((c3WitnessAction.get? "args").getD (Json.mkObj []))))) = true ∧
    executeHistorySeen (execute_action {} 2 c3WitnessState MemoStore.empty) =
      some (c3WitnessState.tool_history, c3WitnessState.seen_tool_signatures) := by
  refine ⟨rfl, by decide, by decide, by decide, ?_⟩
  have hok : execIsOk (execute_action {} 2 c3WitnessState MemoStore.empty) = true := by
    decide
  cases hex : execute_action {} 2 c3WitnessState MemoStore.empty with
  | error e =>
    rw [hex] at hok
    simp [execIsOk] at hok
  | ok sm =>
    obtain ⟨h1, h2⟩ := c3_amended_seen_signature_discipline.2.2 {} 2 c3WitnessState
      MemoStore.empty c3WitnessAction rfl (by decide) (Or.inl (by decide)) (by decide)
      sm.1 sm.2 (hex.trans rfl)
    simp [executeHistorySeen, hex, h1, h2]

set_option smartUnfolding true in
theorem fibMismatchIdx_none_iff :
    ∀ (l : List Int) (p2 p1 : Int) (i : Nat),
    fibMismatchIdx p2 p1 l i = none ↔ fibChainB p2 p1 l = true := by
  intro l
  induction l with
  | nil => intro p2 p1 i; simp [fibMismatchIdx, fibChainB]
  | cons x rest ih =>
    intro p2 p1 i
    simp only [fibMismatchIdx, fibChainB, Bool.and_eq_true, decide_eq_true_eq]
    by_cases hx : x = p1 + p2
    · simp [hx, ih]
    · simp [hx]

set_option smartUnfolding true in
theorem fibChainB_iff :
    ∀ (rest : List Int) (x0 x1 : Int),
    fibChainB x0 x1 rest = true ↔
      (∀ i, i < rest.length →
        (x0 :: x1 :: rest).getD (i + 2) 0 =
          (x0 :: x1 :: rest).getD (i + 1) 0 + (x0 :: x1 :: rest).getD i 0) := by
  intro rest
  induction rest with
  | nil => intro x0 x1; simp [fibChainB]
  | cons y t ih =>
    intro x0 x1
    simp only [fibChainB, Bool.and_eq_true, decide_eq_true_eq, List.length_cons]
    constructor
    · rintro ⟨hy, hc⟩ i hi
      cases i with
      | zero => simpa using hy
      | succ j =>
        have hj : j < t.length := by omega
        have hrec := (ih x1 y).mp hc j hj
        simpa using hrec
    · intro h
      refine ⟨by simpa using h 0 (by omega), (ih x1 y).mpr ?_⟩
      intro j hj
      have hrec := h (j + 1) (by omega)
      simpa using hrec

theorem fibSpec_iff_checks (x0 x1 : Int) (rest : List Int)
    (hlen : (x0 :: x1 :: rest).length = 100) :
    fibSpecOk (x0 :: x1 :: rest) ↔
      (x0 = 0 ∧ x1 = 1 ∧ fibMismatchIdx x0 x1 rest 2 = none) := by
  unfold fibSpecOk
  rw [fibMismatchIdx_none_iff, fibChainB_iff]
  have hr : rest.length = 98 := by simpa using hlen
  constructor
  · rintro ⟨-, h0, h1, hrec⟩
    refine ⟨by simpa using h0, by simpa using h1, ?_⟩
    intro i hi
    exact hrec i (by omega)
  · rintro ⟨h0, h1, hrec⟩
    refine ⟨hlen, by simpa using h0, by simpa using h1, ?_⟩
    intro i hi
    exact hrec i (by omega)

/-- **C6.**  The content validator passes exactly when the call is not a
non-erroring `write_file` under a fibonacci mission, or the written content
parses as a comma-separated list of exactly 100 integers starting `0, 1`
that satisfies the Fibonacci recurrence at every index; the generated
`fibonacci_csv 100` passes and a short list fails. -/
theorem c6_content_validator_iff :
    (∀ (tn : String) (err : Bool) (mission content : String),
      validate_tool_result_for_active_mission tn err mission content = none ↔
        (tn ≠ "write_file" ∨ err = true ∨
          pyContains (pyLower mission) "fibonacci" = false ∨
          ∃ xs, parse_csv_int_list content = some xs ∧ fibSpecOk xs)) ∧
    fibSpecOk (fibNumbers 100) ∧
    parse_csv_int_list "0, 1, 1, x" = none ∧
    validate_tool_result_for_active_mission "write_file" false
      "task: write the fibonacci sequence to fib.txt" (fibonacci_csv 100) = none ∧
    (validate_tool_result_for_active_mission "write_file" false
      "task: write the fibonacci sequence to fib.txt" "0, 1, 2").isSome = true := by
  refine ⟨?_, by unfold fibSpecOk; decide, by decide, by decide, by decide⟩
  intro tn err mission content
  unfold validate_tool_result_for_active_mission
  by_cases h1 : tn = "write_file"
  case neg =>
    rw [if_pos h1]
    simp [h1]
  case pos =>
  subst h1
  rw [if_neg (by simp)]
  cases err with
  | true => simp
  | false =>
    rw [if_neg (by simp)]
    cases hfib : pyContains (pyLower mission) "fibonacci" with
    | false => simp [hfib]
    | true =>
      simp only [hfib, Bool.not_true, Bool.false_eq_true, if_false]
      simp only [ne_eq, not_true, Bool.false_eq_true, Bool.true_eq_false, false_or]
      cases hp : parse_csv_int_list content with
      | none => simp
      | some xs =>
        dsimp only
        simp only [Option.some.injEq, exists_eq_left']
        by_cases hlen : xs.length = 100
        · obtain ⟨x0, x1, rest, rfl⟩ : ∃ a b t, xs = a :: b :: t := by
            cases xs with
            | nil => simp at hlen
            | cons a t1 =>
              cases t1 with
              | nil => simp at hlen
              | cons b t => exact ⟨a, b, t, rfl⟩
          rw [if_neg (by simp [hlen])]
          rw [fibSpec_iff_checks x0 x1 rest hlen]
          by_cases h0 : x0 = 0
          · by_cases hx1 : x1 = 1
            · rw [if_neg (by simp [h0, hx1])]
              dsimp only
              cases hm : fibMismatchIdx x0 x1 rest 2 with
              | none => simp [h0, hx1]
              | some i => simp [h0, hx1]
            · rw [if_pos (by simp [hx1])]
              simp [hx1]
          · rw [if_pos (by simp [h0])]
            simp [h0]
        · rw [if_pos hlen]
          simp [fibSpecOk, hlen]

/-- **C7 (counterexample).**  For a mission that both asks for a sort (with
inline numbers) and for a fibonacci write, the deterministic fallback picks
`sort_array`, not the claimed `write_file`: the sort branch precedes the
fibonacci branch. -/
theorem c7_counterexample_sort_preempts_fibonacci :
    pyContains (pyLower c7CexMission) "fibonacci" = true ∧
    pyContains (pyLower c7CexMission) "write" = true ∧
    jsonGetStr ((deterministic_fallback_action c7CexState).getD .null)
      "tool_name" "" = "sort_array" ∧
    jsonGetStr ((deterministic_fallback_action c7CexState).getD .null)
      "tool_name" "" ≠ "write_file" :=
  ⟨by decide, by decide, by decide, by decide⟩

/-- **C7 (amended).**  When no earlier fallback branch fires (no memoization
pending, missions incomplete, non-empty mission text, and none of the
repeat/sort/uppercase/lowercase/reverse triggers), a mission mentioning
"fibonacci" together with "write" or "write_file" yields
`write_file\x7bpath = extracted-or-"fib.txt", content = fibonacci_csv N\x7d` with
`N = extract_fibonacci_count mission`; the count parses "100th number",
"first 10 terms", "10 numbers", defaults to 100 and is clamped to at least
2, and generation is seed `[0, 1]` with sums of the last two. -/
theorem c7_amended_fallback_write_fibonacci :
    (∀ s : RunState, s.policy_flags.memo_required = false →
      all_missions_completed s = false →
      pyStrip (next_incomplete_mission s) ≠ "" →
      deterministic_fallback_action s =
        mission_fallback_action (pyStrip (next_incomplete_mission s))) ∧
    (∀ mission : String,
      (pyContains (pyLower mission) "repeat" &&
        extract_quoted_text mission ≠ "") = false →
      (pyContains (pyLower mission) "sort" &&
        !(extract_numbers_from_text mission).isEmpty) = false →
      (pyContains (pyLower mission) "uppercase" &&
        extract_quoted_text mission ≠ "") = false →
      (pyContains (pyLower mission) "lowercase" &&
        extract_quoted_text mission ≠ "") = false →
      (pyContains (pyLower mission) "reverse" &&
        extract_quoted_text mission ≠ "") = false →
      (pyContains (pyLower mission) "fibonacci" &&
        (pyContains (pyLower mission) "write" ||
          pyContains (pyLower mission) "write_file")) = true →
      mission_fallback_action mission = some (Json.mkObj
        [("action", .str "tool"), ("tool_name", .str "write_file"),
         ("args", Json.mkObj
           [("path", .str (if extract_write_path_from_mission mission = ""
               then "fib.txt" else extract_write_path_from_mission mission)),
            ("content", .str (fibonacci_csv (extract_fibonacci_count mission)))])])) ∧
    fibNumbers 10 = [0, 1, 1, 2, 3, 5, 8, 13, 21, 34] ∧
    fibonacci_csv 5 = "0, 1, 1, 2, 3" ∧
    extract_fibonacci_count "write the fibonacci sequence until the 100th number" = 100 ∧
    extract_fibonacci_count "write the first 10 terms of the fibonacci sequence" = 10 ∧
    extract_fibonacci_count "write 10 numbers of the fibonacci sequence" = 10 ∧
    extract_fibonacci_count "write the fibonacci sequence" = 100 ∧
    extract_fibonacci_count "write the first 1 terms of the fibonacci sequence" = 2 ∧
    extract_fibonacci_count c7WitnessMission = 100 ∧
    validate_tool_result_for_active_mission "write_file" false c7WitnessMission
      (fibonacci_csv 100) = none := by
  refine ⟨?_, ?_, by decide, by decide, by decide, by decide, by decide, by decide,
    by decide, by decide, by decide⟩
  · intro s hmemo hall hmiss
    simp only [deterministic_fallback_action, hmemo, Bool.false_eq_true, if_false,
      hall]
    rw [if_neg hmiss]
  · intro mission hrep hsort hup hlow hrev hfib
    simp only [mission_fallback_action, hrep, hsort, hup, hlow, hrev, hfib,
      Bool.false_eq_true, if_false]
    rfl

/-- Witness for the hypothesised conjuncts of the C7 amended theorem: the
counterexample state satisfies the dispatch-link hypotheses, and a plain
fibonacci-write mission satisfies the keyword hypotheses and falls back to
the `write_file` action. -/
theorem c7_amended_fallback_write_fibonacci_witness :
    c7CexState.policy_flags.memo_required = false ∧
    all_missions_completed c7CexState = false ∧
    pyStrip (next_incomplete_mission c7CexState) ≠ "" ∧
    deterministic_fallback_action c7CexState =
      mission_fallback_action (pyStrip (next_incomplete_mission c7CexState)) ∧
    (pyContains (pyLower c7WitnessMission) "repeat" &&
      extract_quoted_text c7WitnessMission ≠ "") = false ∧
    (pyContains (pyLower c7WitnessMission) "sort" &&
      !(extract_numbers_from_text c7WitnessMission).isEmpty) = false ∧
    (pyContains (pyLower c7WitnessMission) "uppercase" &&
      extract_quoted_text c7WitnessMission ≠ "") = false ∧
    (pyContains (pyLower c7WitnessMission) "lowercase" &&
      extract_quoted_text c7WitnessMission ≠ "") = false ∧
    (pyContains (pyLower c7WitnessMission) "reverse" &&
      extract_quoted_text c7WitnessMission ≠ "") = false ∧
    (pyContains (pyLower c7WitnessMission) "fibonacci" &&
      (pyContains (pyLower c7WitnessMission) "write" ||
        pyContains (pyLower c7WitnessMission) "write_file")) = true ∧
    mission_fallback_action c7WitnessMission = some (Json.mkObj
      [("action", .str "tool"), ("tool_name", .str "write_file"),
       ("args", Json.mkObj
         [("path", .str (if extract_write_path_from_mission c7WitnessMission = ""
             then "fib.txt" else extract_write_path_from_mission c7WitnessMission)),
          ("content", .str (fibonacci_csv
            (extract_fibonacci_count c7WitnessMission)))])]) :=
  ⟨by decide, by decide, by decide,
    c7_amended_fallback_write_fibonacci.1 c7CexState (by decide) (by decide)
      (by decide),
    by decide, by decide, by decide, by decide, by decide, by decide,
    c7_amended_fallback_write_fibonacci.2.1 c7WitnessMission (by decide) (by decide)
      (by decide) (by decide) (by decide) (by decide)⟩
